import Mathlib

/-!  Verification of the MDIAE satellite telemetry frame reader.

A shallow embedding of the C sources:
  * `src/extended_tools.c`      – byte-order swaps, generic in-place dedup
  * `src/beacon_frame_schema.c` – marker synchronizer and frame/section decoder
  * `src/thermal_calibrated.c`, `src/sun_sensors_calibrated.c` – calibration
  * `src/main.c`                – read loop and fixed-increment record collector

Machine integers are modelled as `Nat` holding the little-endian in-memory
image of the bytes read from the stream (the host of the original program is
little-endian; `IS_BIG_ENDIAN` refers to the wire format, exactly as in
`beacon_frame_schema.h`).  Signedness materialises only where the C code
converts to a signed value (`int16_val`).  IEEE-754 float arithmetic of the
calibration formulas is idealised as exact rational arithmetic (`ℚ`): the
scale constants `0.01f` and `16384.0f` are represented by the exact rationals
they denote.  A `FILE*` byte source is a `List Nat` of the remaining bytes;
the third component of the decoder results models the file position after the
call.  -/

namespace SatelliteReader

/-- Implementation of byte16_swap from src/extended_tools.c:
`(uint16_t)((value_to_swap >> 8) | (value_to_swap << 8))`;
the cast back to `uint16_t` is the final `% 2 ^ 16`. -/
def byte16_swap (value_to_swap : Nat) : Nat :=
  ((value_to_swap >>> 8) ||| (value_to_swap <<< 8)) % 2 ^ 16

/-- Implementation of byte32_swap from src/extended_tools.c (mask-and-shift form,
all intermediate values fit in 32 bits for a `uint32_t` argument). -/
def byte32_swap (value_to_swap : Nat) : Nat :=
  ((value_to_swap &&& 0x000000FF) <<< 24) |||
  ((value_to_swap &&& 0x0000FF00) <<< 8) |||
  ((value_to_swap &&& 0x00FF0000) >>> 8) |||
  ((value_to_swap &&& 0xFF000000) >>> 24)

/-- Value of a 16-bit in-memory image reinterpreted as a C `int16_t`
(two's complement, as on the original target). -/
def int16_val (x : Nat) : Int :=
  if x % 2 ^ 16 < 2 ^ 15 then (x % 2 ^ 16 : Int) else (x % 2 ^ 16 : Int) - 2 ^ 16

/-- Custom 3-byte type `uint24_t` of extended_tools.h (`uint8_t b[3]`). -/
structure uint24_t where
  b0 : Nat
  b1 : Nat
  b2 : Nat
deriving DecidableEq, Repr, Inhabited

/-- Section identifier constants of beacon_frame_schema.h. -/
def PLATFORM_ID : Nat := 0x0001

/-- Section identifier constant of the Memory section. -/
def MEMORY_ID : Nat := 0x0101

/-- Section identifier constant of the CDH section. -/
def CDH_ID : Nat := 0x0201

/-- Section identifier constant of the Power section. -/
def POWER_ID : Nat := 0x0301

/-- Section identifier constant of the Thermal section. -/
def THERMAL_ID : Nat := 0x0401

/-- Section identifier constant of the AOCS section. -/
def AOCS_ID : Nat := 0x0501

/-- Section identifier constant of the Payload section. -/
def PAYLOAD_ID : Nat := 0x0601

/-- Compile-time flag of beacon_frame_schema.h: the wire format is big-endian. -/
def IS_BIG_ENDIAN : Bool := true

/-- Return type of read_data_frame. -/
inductive ReadFileReturnType where
  | READ_OK
  | READ_FAIL
  | READ_EOF
deriving DecidableEq, Repr

export ReadFileReturnType (READ_OK READ_FAIL READ_EOF)

/-- Header holding the 3-byte beacon marker. -/
structure BeaconHeader where
  beacon_id : uint24_t
deriving DecidableEq, Repr, Inhabited

/-- Platform section schema (fields hold the raw little-endian memory image of
the wire bytes, exactly as fread leaves them). -/
structure PlatformTelemetrySchema where
  platform_telemetry_id : Nat
  uptime_s : Nat
  rtc_s : Nat
  resetCount : uint24_t
  currentMode : Nat
  lastBootReason : Nat
deriving DecidableEq, Repr, Inhabited

/-- Memory section schema. -/
structure MemoryTelemetrySchema where
  memory_telemetry_id : Nat
  heap_free_bytes : Nat
deriving DecidableEq, Repr, Inhabited

/-- CDH section schema. -/
structure CDHTelemetrySchema where
  cdh_id : Nat
  lastSeenSequenceNumber : Nat
  antennaDeployStatus : Nat
deriving DecidableEq, Repr, Inhabited

/-- Power section schema. -/
structure PowerTelemetrySchema where
  power_telemetry_id : Nat
  low_voltage_counter : Nat
  nice_battery_mV : Nat
  raw_battery_mV : Nat
  battery_A : Nat
  pcm_3v3_V : Nat
  pcm_3v3_A : Nat
  pcm_5v_V : Nat
  pcm_5v_A : Nat
deriving DecidableEq, Repr, Inhabited

/-- Thermal section schema. -/
structure ThermalTelemetrySchema where
  thermal_telemetry_id : Nat
  CPU_C : Nat
  mirror_cell_C : Nat
deriving DecidableEq, Repr, Inhabited

/-- AOCS section schema. -/
structure AOCSTelemetrySchema where
  aocs_telemetry_id : Nat
  aocs_mode : Nat
  sunvectorX : Nat
  sunvectorY : Nat
  sunvectorZ : Nat
  magnetometerX_mg : Nat
  magnetometerY_mg : Nat
  magnetometerZ_mg : Nat
  gyroX_dps : Nat
  gyroY_dps : Nat
  gyroZ_dps : Nat
  temperature_IMU_C : Nat
  fine_gyroX_dps : Nat
  fine_gyroY_dps : Nat
  fine_gyroZ_dps : Nat
  wheel_1_radsec : Nat
  wheel_2_radsec : Nat
  wheel_3_radsec : Nat
  wheel_4_radsec : Nat
deriving DecidableEq, Repr, Inhabited

/-- Payload section schema. -/
structure PayloadTelemetrySchema where
  payload_telemetry_id : Nat
  experimentsRun : Nat
  experimentsFailed : Nat
  lastExperimentRun : Nat
  currentState : Nat
deriving DecidableEq, Repr, Inhabited

/-- Full frame schema of beacon_frame_schema.h. -/
structure BeaconFrame where
  platform : PlatformTelemetrySchema
  memory : MemoryTelemetrySchema
  cdh : CDHTelemetrySchema
  power : PowerTelemetrySchema
  thermal : ThermalTelemetrySchema
  aocs : AOCSTelemetrySchema
  payload : PayloadTelemetrySchema
deriving DecidableEq, Repr, Inhabited

/-- Little-endian value of a byte list: the in-memory integer that `fread`
produces on the little-endian host when it stores these bytes in order. -/
def leVal : List Nat → Nat
  | [] => 0
  | b :: bs => b + 256 * leVal bs

/-- Model of the READ_FIELD macro for a `w`-byte integer field: read exactly
`w` bytes (fail on a short read), store their little-endian image. -/
def rdField (w : Nat) (s : List Nat) : Option (Nat × List Nat) :=
  if s.length < w then none else some (leVal (s.take w), s.drop w)

/-- Model of the READ_FIELD macro for a `uint24_t` field (3 raw bytes). -/
def rdField24 (s : List Nat) : Option (uint24_t × List Nat) :=
  match s with
  | b0 :: b1 :: b2 :: rest => some (⟨b0, b1, b2⟩, rest)
  | _ => none

/-- Sliding-window marker search of read_data_frame: keep the last (up to) 3
bytes read; stop right after the window equals the beacon id, `none` at EOF.
The result is the remaining stream (the file position after the marker). -/
def sync_loop (header : BeaconHeader) : List Nat → List Nat → Option (List Nat)
  | _, [] => none
  | window, byte_read :: rest =>
    let w := if window.length < 3 then window ++ [byte_read] else window.tail ++ [byte_read]
    if w = [header.beacon_id.b0, header.beacon_id.b1, header.beacon_id.b2] then some rest
    else sync_loop header w rest

/-- Platform section reads of read_data_frame (field by field, identifier
checked first; the section record is updated incrementally like `out`). -/
def readPlatformSection (s : List Nat) (sec : PlatformTelemetrySchema) :
    ReadFileReturnType × PlatformTelemetrySchema × List Nat :=
  match rdField 2 s with
  | none => (READ_FAIL, sec, s)
  | some (v, s1) =>
    let sec := { sec with platform_telemetry_id := v }
    if PLATFORM_ID ≠ (if IS_BIG_ENDIAN then byte16_swap v else v) then (READ_FAIL, sec, s1)
    else
      match rdField 4 s1 with
      | none => (READ_FAIL, sec, s1)
      | some (v, s2) =>
        let sec := { sec with uptime_s := v }
        match rdField 4 s2 with
        | none => (READ_FAIL, sec, s2)
        | some (v, s3) =>
          let sec := { sec with rtc_s := v }
          match rdField24 s3 with
          | none => (READ_FAIL, sec, s3)
          | some (v, s4) =>
            let sec := { sec with resetCount := v }
            match rdField 1 s4 with
            | none => (READ_FAIL, sec, s4)
            | some (v, s5) =>
              let sec := { sec with currentMode := v }
              match rdField 4 s5 with
              | none => (READ_FAIL, sec, s5)
              | some (v, s6) => (READ_OK, { sec with lastBootReason := v }, s6)

/-- Memory section reads of read_data_frame. -/
def readMemorySection (s : List Nat) (sec : MemoryTelemetrySchema) :
    ReadFileReturnType × MemoryTelemetrySchema × List Nat :=
  match rdField 2 s with
  | none => (READ_FAIL, sec, s)
  | some (v, s1) =>
    let sec := { sec with memory_telemetry_id := v }
    if MEMORY_ID ≠ (if IS_BIG_ENDIAN then byte16_swap v else v) then (READ_FAIL, sec, s1)
    else
      match rdField 4 s1 with
      | none => (READ_FAIL, sec, s1)
      | some (v, s2) => (READ_OK, { sec with heap_free_bytes := v }, s2)

/-- CDH section reads of read_data_frame. -/
def readCDHSection (s : List Nat) (sec : CDHTelemetrySchema) :
    ReadFileReturnType × CDHTelemetrySchema × List Nat :=
  match rdField 2 s with
  | none => (READ_FAIL, sec, s)
  | some (v, s1) =>
    let sec := { sec with cdh_id := v }
    if CDH_ID ≠ (if IS_BIG_ENDIAN then byte16_swap v else v) then (READ_FAIL, sec, s1)
    else
      match rdField 4 s1 with
      | none => (READ_FAIL, sec, s1)
      | some (v, s2) =>
        let sec := { sec with lastSeenSequenceNumber := v }
        match rdField 1 s2 with
        | none => (READ_FAIL, sec, s2)
        | some (v, s3) => (READ_OK, { sec with antennaDeployStatus := v }, s3)

/-- Power section reads of read_data_frame. -/
def readPowerSection (s : List Nat) (sec : PowerTelemetrySchema) :
    ReadFileReturnType × PowerTelemetrySchema × List Nat :=
  match rdField 2 s with
  | none => (READ_FAIL, sec, s)
  | some (v, s1) =>
    let sec := { sec with power_telemetry_id := v }
    if POWER_ID ≠ (if IS_BIG_ENDIAN then byte16_swap v else v) then (READ_FAIL, sec, s1)
    else
      match rdField 2 s1 with
      | none => (READ_FAIL, sec, s1)
      | some (v, s2) =>
        let sec := { sec with low_voltage_counter := v }
        match rdField 2 s2 with
        | none => (READ_FAIL, sec, s2)
        | some (v, s3) =>
          let sec := { sec with nice_battery_mV := v }
          match rdField 2 s3 with
          | none => (READ_FAIL, sec, s3)
          | some (v, s4) =>
            let sec := { sec with raw_battery_mV := v }
            match rdField 2 s4 with
            | none => (READ_FAIL, sec, s4)
            | some (v, s5) =>
              let sec := { sec with battery_A := v }
              match rdField 2 s5 with
              | none => (READ_FAIL, sec, s5)
              | some (v, s6) =>
                let sec := { sec with pcm_3v3_V := v }
                match rdField 2 s6 with
                | none => (READ_FAIL, sec, s6)
                | some (v, s7) =>
                  let sec := { sec with pcm_3v3_A := v }
                  match rdField 2 s7 with
                  | none => (READ_FAIL, sec, s7)
                  | some (v, s8) =>
                    let sec := { sec with pcm_5v_V := v }
                    match rdField 2 s8 with
                    | none => (READ_FAIL, sec, s8)
                    | some (v, s9) => (READ_OK, { sec with pcm_5v_A := v }, s9)

/-- Thermal section reads of read_data_frame. -/
def readThermalSection (s : List Nat) (sec : ThermalTelemetrySchema) :
    ReadFileReturnType × ThermalTelemetrySchema × List Nat :=
  match rdField 2 s with
  | none => (READ_FAIL, sec, s)
  | some (v, s1) =>
    let sec := { sec with thermal_telemetry_id := v }
    if THERMAL_ID ≠ (if IS_BIG_ENDIAN then byte16_swap v else v) then (READ_FAIL, sec, s1)
    else
      match rdField 2 s1 with
      | none => (READ_FAIL, sec, s1)
      | some (v, s2) =>
        let sec := { sec with CPU_C := v }
        match rdField 2 s2 with
        | none => (READ_FAIL, sec, s2)
        | some (v, s3) => (READ_OK, { sec with mirror_cell_C := v }, s3)

/-- AOCS section reads of read_data_frame. -/
def readAOCSSection (s : List Nat) (sec : AOCSTelemetrySchema) :
    ReadFileReturnType × AOCSTelemetrySchema × List Nat :=
  match rdField 2 s with
  | none => (READ_FAIL, sec, s)
  | some (v, s1) =>
    let sec := { sec with aocs_telemetry_id := v }
    if AOCS_ID ≠ (if IS_BIG_ENDIAN then byte16_swap v else v) then (READ_FAIL, sec, s1)
    else
      match rdField 4 s1 with
      | none => (READ_FAIL, sec, s1)
      | some (v, s2) =>
        let sec := { sec with aocs_mode := v }
        match rdField 2 s2 with
        | none => (READ_FAIL, sec, s2)
        | some (v, s3) =>
          let sec := { sec with sunvectorX := v }
          match rdField 2 s3 with
          | none => (READ_FAIL, sec, s3)
          | some (v, s4) =>
            let sec := { sec with sunvectorY := v }
            match rdField 2 s4 with
            | none => (READ_FAIL, sec, s4)
            | some (v, s5) =>
              let sec := { sec with sunvectorZ := v }
              match rdField 2 s5 with
              | none => (READ_FAIL, sec, s5)
              | some (v, s6) =>
                let sec := { sec with magnetometerX_mg := v }
                match rdField 2 s6 with
                | none => (READ_FAIL, sec, s6)
                | some (v, s7) =>
                  let sec := { sec with magnetometerY_mg := v }
                  match rdField 2 s7 with
                  | none => (READ_FAIL, sec, s7)
                  | some (v, s8) =>
                    let sec := { sec with magnetometerZ_mg := v }
                    match rdField 2 s8 with
                    | none => (READ_FAIL, sec, s8)
                    | some (v, s9) =>
                      let sec := { sec with gyroX_dps := v }
                      match rdField 2 s9 with
                      | none => (READ_FAIL, sec, s9)
                      | some (v, s10) =>
                        let sec := { sec with gyroY_dps := v }
                        match rdField 2 s10 with
                        | none => (READ_FAIL, sec, s10)
                        | some (v, s11) =>
                          let sec := { sec with gyroZ_dps := v }
                          match rdField 2 s11 with
                          | none => (READ_FAIL, sec, s11)
                          | some (v, s12) =>
                            let sec := { sec with temperature_IMU_C := v }
                            match rdField 4 s12 with
                            | none => (READ_FAIL, sec, s12)
                            | some (v, s13) =>
                              let sec := { sec with fine_gyroX_dps := v }
                              match rdField 4 s13 with
                              | none => (READ_FAIL, sec, s13)
                              | some (v, s14) =>
                                let sec := { sec with fine_gyroY_dps := v }
                                match rdField 4 s14 with
                                | none => (READ_FAIL, sec, s14)
                                | some (v, s15) =>
                                  let sec := { sec with fine_gyroZ_dps := v }
                                  match rdField 2 s15 with
                                  | none => (READ_FAIL, sec, s15)
                                  | some (v, s16) =>
                                    let sec := { sec with wheel_1_radsec := v }
                                    match rdField 2 s16 with
                                    | none => (READ_FAIL, sec, s16)
                                    | some (v, s17) =>
                                      let sec := { sec with wheel_2_radsec := v }
                                      match rdField 2 s17 with
                                      | none => (READ_FAIL, sec, s17)
                                      | some (v, s18) =>
                                        let sec := { sec with wheel_3_radsec := v }
                                        match rdField 2 s18 with
                                        | none => (READ_FAIL, sec, s18)
                                        | some (v, s19) => (READ_OK, { sec with wheel_4_radsec := v }, s19)

/-- Payload section reads of read_data_frame. -/
def readPayloadSection (s : List Nat) (sec : PayloadTelemetrySchema) :
    ReadFileReturnType × PayloadTelemetrySchema × List Nat :=
  match rdField 2 s with
  | none => (READ_FAIL, sec, s)
  | some (v, s1) =>
    let sec := { sec with payload_telemetry_id := v }
    if PAYLOAD_ID ≠ (if IS_BIG_ENDIAN then byte16_swap v else v) then (READ_FAIL, sec, s1)
    else
      match rdField 2 s1 with
      | none => (READ_FAIL, sec, s1)
      | some (v, s2) =>
        let sec := { sec with experimentsRun := v }
        match rdField 2 s2 with
        | none => (READ_FAIL, sec, s2)
        | some (v, s3) =>
          let sec := { sec with experimentsFailed := v }
          match rdField 2 s3 with
          | none => (READ_FAIL, sec, s3)
          | some (v, s4) =>
            let sec := { sec with lastExperimentRun := v }
            match rdField 1 s4 with
            | none => (READ_FAIL, sec, s4)
            | some (v, s5) => (READ_OK, { sec with currentState := v }, s5)

/-- Section-by-section body of read_data_frame after the marker was found.
Each section's (possibly partial) reads land in `out` exactly as the C code
writes through the `out` pointer; the first failing section aborts. -/
def readSections (s : List Nat) (out : BeaconFrame) :
    ReadFileReturnType × BeaconFrame × List Nat :=
  match readPlatformSection s out.platform with
  | (READ_OK, p, s1) =>
    let out := { out with platform := p }
    (match readMemorySection s1 out.memory with
     | (READ_OK, m, s2) =>
       let out := { out with memory := m }
       (match readCDHSection s2 out.cdh with
        | (READ_OK, c, s3) =>
          let out := { out with cdh := c }
          (match readPowerSection s3 out.power with
           | (READ_OK, pw, s4) =>
             let out := { out with power := pw }
             (match readThermalSection s4 out.thermal with
              | (READ_OK, t, s5) =>
                let out := { out with thermal := t }
                (match readAOCSSection s5 out.aocs with
                 | (READ_OK, a, s6) =>
                   let out := { out with aocs := a }
                   (match readPayloadSection s6 out.payload with
                    | (READ_OK, pl, s7) => (READ_OK, { out with payload := pl }, s7)
                    | (st, pl, s7) => (st, { out with payload := pl }, s7))
                 | (st, a, s6) => (st, { out with aocs := a }, s6))
              | (st, t, s5) => (st, { out with thermal := t }, s5))
           | (st, pw, s4) => (st, { out with power := pw }, s4))
        | (st, c, s3) => (st, { out with cdh := c }, s3))
     | (st, m, s2) => (st, { out with memory := m }, s2))
  | (st, p, s1) => (st, { out with platform := p }, s1)

/-- Model of read_data_frame of src/beacon_frame_schema.c: search the marker
with the sliding window, then read the seven sections in schema order.  On
EOF during the search the whole stream has been consumed. -/
def read_data_frame (header : BeaconHeader) (stream : List Nat) (out : BeaconFrame) :
    ReadFileReturnType × BeaconFrame × List Nat :=
  match sync_loop header [] stream with
  | none => (READ_EOF, out, [])
  | some s => readSections s out

/-- Serialization of one `w`-byte integer field: the memory image written
back to wire bytes in order (inverse of the little-endian read). -/
def encodeField : Nat → Nat → List Nat
  | 0, _ => []
  | w + 1, v => v % 256 :: encodeField w (v / 256)

/-- Serialization of a `uint24_t` field (its 3 raw bytes in order). -/
def encode24 (r : uint24_t) : List Nat := [r.b0, r.b1, r.b2]

/-- Wire bytes of the Platform section, fields in schema order. -/
def encodePlatform (p : PlatformTelemetrySchema) : List Nat :=
  encodeField 2 p.platform_telemetry_id ++ encodeField 4 p.uptime_s ++
  encodeField 4 p.rtc_s ++ encode24 p.resetCount ++
  encodeField 1 p.currentMode ++ encodeField 4 p.lastBootReason

/-- Wire bytes of the Memory section. -/
def encodeMemory (m : MemoryTelemetrySchema) : List Nat :=
  encodeField 2 m.memory_telemetry_id ++ encodeField 4 m.heap_free_bytes

/-- Wire bytes of the CDH section. -/
def encodeCDH (c : CDHTelemetrySchema) : List Nat :=
  encodeField 2 c.cdh_id ++ encodeField 4 c.lastSeenSequenceNumber ++
  encodeField 1 c.antennaDeployStatus

/-- Wire bytes of the Power section. -/
def encodePower (p : PowerTelemetrySchema) : List Nat :=
  encodeField 2 p.power_telemetry_id ++ encodeField 2 p.low_voltage_counter ++
  encodeField 2 p.nice_battery_mV ++ encodeField 2 p.raw_battery_mV ++
  encodeField 2 p.battery_A ++ encodeField 2 p.pcm_3v3_V ++
  encodeField 2 p.pcm_3v3_A ++ encodeField 2 p.pcm_5v_V ++ encodeField 2 p.pcm_5v_A

/-- Wire bytes of the Thermal section. -/
def encodeThermal (t : ThermalTelemetrySchema) : List Nat :=
  encodeField 2 t.thermal_telemetry_id ++ encodeField 2 t.CPU_C ++
  encodeField 2 t.mirror_cell_C

/-- Wire bytes of the AOCS section. -/
def encodeAOCS (a : AOCSTelemetrySchema) : List Nat :=
  encodeField 2 a.aocs_telemetry_id ++ encodeField 4 a.aocs_mode ++
  encodeField 2 a.sunvectorX ++ encodeField 2 a.sunvectorY ++ encodeField 2 a.sunvectorZ ++
  encodeField 2 a.magnetometerX_mg ++ encodeField 2 a.magnetometerY_mg ++
  encodeField 2 a.magnetometerZ_mg ++ encodeField 2 a.gyroX_dps ++
  encodeField 2 a.gyroY_dps ++ encodeField 2 a.gyroZ_dps ++
  encodeField 2 a.temperature_IMU_C ++ encodeField 4 a.fine_gyroX_dps ++
  encodeField 4 a.fine_gyroY_dps ++ encodeField 4 a.fine_gyroZ_dps ++
  encodeField 2 a.wheel_1_radsec ++ encodeField 2 a.wheel_2_radsec ++
  encodeField 2 a.wheel_3_radsec ++ encodeField 2 a.wheel_4_radsec

/-- Wire bytes of the Payload section. -/
def encodePayload (p : PayloadTelemetrySchema) : List Nat :=
  encodeField 2 p.payload_telemetry_id ++ encodeField 2 p.experimentsRun ++
  encodeField 2 p.experimentsFailed ++ encodeField 2 p.lastExperimentRun ++
  encodeField 1 p.currentState

/-- Synthetic wire frame: the 3-byte marker followed by all fields of all
seven sections serialized in schema order. -/
def encodeFrame (header : BeaconHeader) (f : BeaconFrame) : List Nat :=
  [header.beacon_id.b0, header.beacon_id.b1, header.beacon_id.b2] ++
  encodePlatform f.platform ++ encodeMemory f.memory ++ encodeCDH f.cdh ++
  encodePower f.power ++ encodeThermal f.thermal ++ encodeAOCS f.aocs ++
  encodePayload f.payload

/-- Range constraints making a Platform section representable in its C types,
with the identifier holding the expected constant in wire byte order. -/
def PlatformWF (p : PlatformTelemetrySchema) : Prop :=
  p.platform_telemetry_id < 2 ^ 16 ∧
  byte16_swap p.platform_telemetry_id = PLATFORM_ID ∧
  p.uptime_s < 2 ^ 32 ∧ p.rtc_s < 2 ^ 32 ∧
  p.resetCount.b0 < 2 ^ 8 ∧ p.resetCount.b1 < 2 ^ 8 ∧ p.resetCount.b2 < 2 ^ 8 ∧
  p.currentMode < 2 ^ 8 ∧ p.lastBootReason < 2 ^ 32

/-- Range and identifier constraints for the Memory section. -/
def MemoryWF (m : MemoryTelemetrySchema) : Prop :=
  m.memory_telemetry_id < 2 ^ 16 ∧
  byte16_swap m.memory_telemetry_id = MEMORY_ID ∧
  m.heap_free_bytes < 2 ^ 32

/-- Range and identifier constraints for the CDH section. -/
def CDHWF (c : CDHTelemetrySchema) : Prop :=
  c.cdh_id < 2 ^ 16 ∧ byte16_swap c.cdh_id = CDH_ID ∧
  c.lastSeenSequenceNumber < 2 ^ 32 ∧ c.antennaDeployStatus < 2 ^ 8

/-- Range and identifier constraints for the Power section. -/
def PowerWF (p : PowerTelemetrySchema) : Prop :=
  p.power_telemetry_id < 2 ^ 16 ∧
  byte16_swap p.power_telemetry_id = POWER_ID ∧
  p.low_voltage_counter < 2 ^ 16 ∧ p.nice_battery_mV < 2 ^ 16 ∧
  p.raw_battery_mV < 2 ^ 16 ∧ p.battery_A < 2 ^ 16 ∧
  p.pcm_3v3_V < 2 ^ 16 ∧ p.pcm_3v3_A < 2 ^ 16 ∧
  p.pcm_5v_V < 2 ^ 16 ∧ p.pcm_5v_A < 2 ^ 16

/-- Range and identifier constraints for the Thermal section. -/
def ThermalWF (t : ThermalTelemetrySchema) : Prop :=
  t.thermal_telemetry_id < 2 ^ 16 ∧
  byte16_swap t.thermal_telemetry_id = THERMAL_ID ∧
  t.CPU_C < 2 ^ 16 ∧ t.mirror_cell_C < 2 ^ 16

/-- Range and identifier constraints for the AOCS section. -/
def AOCSWF (a : AOCSTelemetrySchema) : Prop :=
  a.aocs_telemetry_id < 2 ^ 16 ∧
  byte16_swap a.aocs_telemetry_id = AOCS_ID ∧
  a.aocs_mode < 2 ^ 32 ∧
  a.sunvectorX < 2 ^ 16 ∧ a.sunvectorY < 2 ^ 16 ∧ a.sunvectorZ < 2 ^ 16 ∧
  a.magnetometerX_mg < 2 ^ 16 ∧ a.magnetometerY_mg < 2 ^ 16 ∧
  a.magnetometerZ_mg < 2 ^ 16 ∧
  a.gyroX_dps < 2 ^ 16 ∧ a.gyroY_dps < 2 ^ 16 ∧ a.gyroZ_dps < 2 ^ 16 ∧
  a.temperature_IMU_C < 2 ^ 16 ∧
  a.fine_gyroX_dps < 2 ^ 32 ∧ a.fine_gyroY_dps < 2 ^ 32 ∧ a.fine_gyroZ_dps < 2 ^ 32 ∧
  a.wheel_1_radsec < 2 ^ 16 ∧ a.wheel_2_radsec < 2 ^ 16 ∧
  a.wheel_3_radsec < 2 ^ 16 ∧ a.wheel_4_radsec < 2 ^ 16

/-- Range and identifier constraints for the Payload section. -/
def PayloadWF (p : PayloadTelemetrySchema) : Prop :=
  p.payload_telemetry_id < 2 ^ 16 ∧
  byte16_swap p.payload_telemetry_id = PAYLOAD_ID ∧
  p.experimentsRun < 2 ^ 16 ∧ p.experimentsFailed < 2 ^ 16 ∧
  p.lastExperimentRun < 2 ^ 16 ∧ p.currentState < 2 ^ 8

/-- Range constraints making a frame's fields representable in their C types,
together with the requirement that the seven identifier fields hold the
expected constants in wire byte order. -/
def FrameWF (f : BeaconFrame) : Prop :=
  PlatformWF f.platform ∧ MemoryWF f.memory ∧ CDHWF f.cdh ∧ PowerWF f.power ∧
  ThermalWF f.thermal ∧ AOCSWF f.aocs ∧ PayloadWF f.payload

instance (p : PlatformTelemetrySchema) : Decidable (PlatformWF p) := by
  unfold PlatformWF; infer_instance

instance (m : MemoryTelemetrySchema) : Decidable (MemoryWF m) := by
  unfold MemoryWF; infer_instance

instance (c : CDHTelemetrySchema) : Decidable (CDHWF c) := by
  unfold CDHWF; infer_instance

instance (p : PowerTelemetrySchema) : Decidable (PowerWF p) := by
  unfold PowerWF; infer_instance

instance (t : ThermalTelemetrySchema) : Decidable (ThermalWF t) := by
  unfold ThermalWF; infer_instance

instance (a : AOCSTelemetrySchema) : Decidable (AOCSWF a) := by
  unfold AOCSWF; infer_instance

instance (p : PayloadTelemetrySchema) : Decidable (PayloadWF p) := by
  unfold PayloadWF; infer_instance

instance (f : BeaconFrame) : Decidable (FrameWF f) := by
  unfold FrameWF; infer_instance

/-- Specification vocabulary for the synchronizer: after consuming the first
`k` bytes of `s` the three most recently read bytes equal the marker `m`. -/
def markerAt (m : List Nat) (s : List Nat) (k : Nat) : Prop :=
  3 ≤ k ∧ k ≤ s.length ∧ (s.take k).drop (k - 3) = m

instance (m s : List Nat) (k : Nat) : Decidable (markerAt m s k) := by
  unfold markerAt; infer_instance

/-- Thermal calibrated record of thermal_calibrated.h (floats idealised as ℚ). -/
structure ThermalTelemetryCalibrated where
  thermal_telemetry_timestamp : Nat
  CPU_C : ℚ
  mirror_cell_C : ℚ
deriving DecidableEq, Repr

instance : Inhabited ThermalTelemetryCalibrated := ⟨⟨0, 0, 0⟩⟩

/-- Sun sensors calibrated record of sun_sensors_calibrated.h. -/
structure SunSensorsTelemetryCalibrated where
  sun_sensors_telemetry_timestamp : Nat
  sun_vector_x : ℚ
  sun_vector_y : ℚ
  sun_vector_z : ℚ
deriving DecidableEq, Repr

instance : Inhabited SunSensorsTelemetryCalibrated := ⟨⟨0, 0, 0, 0⟩⟩

/-- Temperature conversion macro of thermal_calibrated.h:
`((float)(value) * 0.01f)`, with the float arithmetic idealised over ℚ. -/
def TEMP_C_PHYSICAL_VALUE (value : Int) : ℚ := (value : ℚ) * 0.01

/-- Sun sensor conversion macro of sun_sensors_calibrated.h:
`((float)(value) / 16384.0f)`, idealised over ℚ. -/
def SUN_SENSORS_PHYSICAL_VALUE (value : Int) : ℚ := (value : ℚ) / 16384.0

/-- Model of thermal_to_calibrated of src/thermal_calibrated.c. -/
def thermal_to_calibrated (thermal_schema_value : ThermalTelemetrySchema)
    (timestamp : Nat) : ThermalTelemetryCalibrated :=
  let cpu_T := thermal_schema_value.CPU_C
  let mirror_T := thermal_schema_value.mirror_cell_C
  let ts := timestamp
  let cpu_T := if IS_BIG_ENDIAN then byte16_swap cpu_T else cpu_T
  let mirror_T := if IS_BIG_ENDIAN then byte16_swap mirror_T else mirror_T
  let ts := if IS_BIG_ENDIAN then byte32_swap ts else ts
  { thermal_telemetry_timestamp := ts,
    CPU_C := TEMP_C_PHYSICAL_VALUE (int16_val cpu_T),
    mirror_cell_C := TEMP_C_PHYSICAL_VALUE (int16_val mirror_T) }

/-- Model of sun_sensors_to_calibrated of src/sun_sensors_calibrated.c. -/
def sun_sensors_to_calibrated (aocs_schema_value : AOCSTelemetrySchema)
    (timestamp : Nat) : SunSensorsTelemetryCalibrated :=
  let sun_vector_x := aocs_schema_value.sunvectorX
  let sun_vector_y := aocs_schema_value.sunvectorY
  let sun_vector_z := aocs_schema_value.sunvectorZ
  let ts := timestamp
  let sun_vector_x := if IS_BIG_ENDIAN then byte16_swap sun_vector_x else sun_vector_x
  let sun_vector_y := if IS_BIG_ENDIAN then byte16_swap sun_vector_y else sun_vector_y
  let sun_vector_z := if IS_BIG_ENDIAN then byte16_swap sun_vector_z else sun_vector_z
  let ts := if IS_BIG_ENDIAN then byte32_swap ts else ts
  { sun_sensors_telemetry_timestamp := ts,
    sun_vector_x := SUN_SENSORS_PHYSICAL_VALUE (int16_val sun_vector_x),
    sun_vector_y := SUN_SENSORS_PHYSICAL_VALUE (int16_val sun_vector_y),
    sun_vector_z := SUN_SENSORS_PHYSICAL_VALUE (int16_val sun_vector_z) }

/-- Model of thermal_timestamp_comparator of src/thermal_calibrated.c. -/
def thermal_timestamp_comparator (a b : ThermalTelemetryCalibrated) : Int :=
  if a.thermal_telemetry_timestamp < b.thermal_telemetry_timestamp then -1
  else if a.thermal_telemetry_timestamp > b.thermal_telemetry_timestamp then 1
  else 0

/-- Model of sun_sensors_timestamp_comparator of src/sun_sensors_calibrated.c. -/
def sun_sensors_timestamp_comparator (a b : SunSensorsTelemetryCalibrated) : Int :=
  if a.sun_sensors_telemetry_timestamp < b.sun_sensors_telemetry_timestamp then -1
  else if a.sun_sensors_telemetry_timestamp > b.sun_sensors_telemetry_timestamp then 1
  else 0

/-- The for-loop of array_duplicate_removal: the array contents are the list
`p`, `keep_index` is the next write index, `i` the read index; `memmove` is a
`List.set` (guarded exactly as in the source). -/
def adr_loop [Inhabited α] (comparator : α → α → Int) (n : Nat)
    (p : List α) (keep_index i : Nat) : Nat × List α :=
  if h : i < n then
    let current := p.getD i default
    let previous := p.getD (keep_index - 1) default
    if comparator current previous ≠ 0 then
      adr_loop comparator n
        (if keep_index ≠ i then p.set keep_index current else p) (keep_index + 1) (i + 1)
    else
      adr_loop comparator n p keep_index (i + 1)
  else (keep_index, p)
termination_by n - i
decreasing_by all_goals omega

/-- Model of array_duplicate_removal of src/extended_tools.c.  The `Option`s
model NULL pointer arguments; the result pairs the returned new logical
length with the final array contents (mutated in place by the C code). -/
def array_duplicate_removal [Inhabited α] (array : Option (List α))
    (n size : Nat) (comparator : Option (α → α → Int)) : Nat × List α :=
  match array, comparator with
  | some p, some cmp =>
    if size = 0 ∨ n = 0 then (0, p) else adr_loop cmp n p 1 1
  | some p, none => (0, p)
  | none, _ => (0, [])

/-- Functional view of the dedup loop used by the proofs: the elements kept
after the last kept element `last`. -/
def adr_fun (comparator : α → α → Int) : α → List α → List α
  | _, [] => []
  | last, c :: rest =>
    if comparator c last ≠ 0 then c :: adr_fun comparator c rest
    else adr_fun comparator last rest

/-- Modelled from the spec: "single left-to-right pass keeping the first
element of each run of timestamp-equal elements" — the first element of each
maximal run of adjacent records with equal timestamps. -/
def firstOfRuns : List ThermalTelemetryCalibrated → List ThermalTelemetryCalibrated
  | [] => []
  | a :: rest =>
    a :: firstOfRuns (rest.dropWhile
      (fun b => b.thermal_telemetry_timestamp == a.thermal_telemetry_timestamp))
termination_by l => l.length
decreasing_by
  simp only [List.length_cons]
  exact Nat.lt_succ_of_le (List.dropWhile_sublist _).length_le

/-- Modelled from the spec: the libc qsort call of src/main.c, "sort by
timestamp ascending" with the timestamp comparator (qsort itself is not part
of this repository). -/
def qsort_by_timestamp (l : List ThermalTelemetryCalibrated) :
    List ThermalTelemetryCalibrated :=
  l.insertionSort
    (fun a b => a.thermal_telemetry_timestamp ≤ b.thermal_telemetry_timestamp)

/-- The beacon header used by src/main.c: marker bytes FF FF F0. -/
def exHeader : BeaconHeader := ⟨⟨0xFF, 0xFF, 0xF0⟩⟩

/-- Concrete well-formed frame used as a witness input (identifier fields
hold the constants in wire byte order, e.g. 0x0100 is the in-memory image of
the wire bytes 00 01 for PLATFORM_ID). -/
def exFrame : BeaconFrame :=
  { platform := ⟨0x0100, 1, 2, ⟨3, 4, 5⟩, 6, 7⟩,
    memory := ⟨0x0101, 8⟩,
    cdh := ⟨0x0102, 9, 10⟩,
    power := ⟨0x0103, 11, 12, 13, 14, 15, 16, 17, 18⟩,
    thermal := ⟨0x0104, 19, 20⟩,
    aocs := ⟨0x0105, 21, 22, 23, 24, 25, 26, 27, 28, 29, 30, 31, 32, 33, 34, 35, 36, 37, 38⟩,
    payload := ⟨0x0106, 39, 40, 41, 42⟩ }

/-- Concrete dedup example of the spec: timestamps `[5,3,3,1,5]` with
distinguishable payloads. -/
def exThermalInput : List ThermalTelemetryCalibrated :=
  [⟨5, 1, 0⟩, ⟨3, 2, 0⟩, ⟨3, 3, 0⟩, ⟨1, 4, 0⟩, ⟨5, 5, 0⟩]

/-- The example after sorting by timestamp: `[1,3,3,5,5]`. -/
def exThermalSorted : List ThermalTelemetryCalibrated :=
  [⟨1, 4, 0⟩, ⟨3, 2, 0⟩, ⟨3, 3, 0⟩, ⟨5, 1, 0⟩, ⟨5, 5, 0⟩]

/-- State of the record collector of src/main.c: logical length, current
capacity, and the number of realloc growth events so far. -/
structure Collector where
  length : Nat
  capacity : Nat
  growths : Nat
deriving DecidableEq, Repr

/-- Model of one append in the main loop: when full, grow capacity by
`capacity ? capacity + 128 : 128`, then store the record. -/
def collector_append (c : Collector) : Collector :=
  if c.length = c.capacity then
    let new_capacity := if c.capacity ≠ 0 then c.capacity + 128 else 128
    { length := c.length + 1, capacity := new_capacity, growths := c.growths + 1 }
  else { c with length := c.length + 1 }

/-- Iterated appends. -/
def collector_appendN : Nat → Collector → Collector
  | 0, c => c
  | n + 1, c => collector_appendN n (collector_append c)

/-- Initial collector state of src/main.c (NULL array, length 0, capacity 0). -/
def collector_empty : Collector := ⟨0, 0, 0⟩

/-- Model of the read loop of src/main.c: read frames while READ_OK, append a
thermal and a sun-vector record per successful frame (the same `frame`
variable is reused as the out parameter of the next call); stop on any other
status.  `fuel` bounds the iteration count. -/
def collect_frames (header : BeaconHeader) :
    Nat → List Nat → BeaconFrame →
    List ThermalTelemetryCalibrated × List SunSensorsTelemetryCalibrated × ReadFileReturnType
  | 0, _, _ => ([], [], READ_FAIL)
  | fuel + 1, stream, frame0 =>
    match read_data_frame header stream frame0 with
    | (READ_OK, f, rest) =>
      let r := collect_frames header fuel rest f
      (thermal_to_calibrated f.thermal f.platform.rtc_s :: r.1,
       sun_sensors_to_calibrated f.aocs f.platform.rtc_s :: r.2.1, r.2.2)
    | (st, _, _) => ([], [], st)

/-! ### Byte-order utility lemmas -/

theorem and_shiftLeft_mask (x m k : Nat) :
    x &&& (m <<< k) = ((x >>> k) &&& m) <<< k := by
  apply Nat.eq_of_testBit_eq
  intro i
  simp only [Nat.testBit_and, Nat.testBit_shiftLeft, Nat.testBit_shiftRight]
  by_cases hki : k ≤ i
  · simp [hki, Nat.add_sub_cancel' hki, Bool.and_left_comm, Bool.and_comm]
  · simp [hki]

theorem byte16_swap_eq {x : Nat} (hx : x < 65536) :
    byte16_swap x = x % 256 * 256 + x / 256 := by
  have h1 : x / 2 ^ 8 < 2 ^ 8 := by omega
  rw [byte16_swap, Nat.shiftRight_eq_div_pow, Nat.shiftLeft_eq, Nat.lor_comm,
      show x * 2 ^ 8 = 2 ^ 8 * x from Nat.mul_comm _ _, ← Nat.mul_add_lt_is_or h1 x]
  have h256 : (2 : Nat) ^ 8 = 256 := by norm_num
  have h65536 : (2 : Nat) ^ 16 = 65536 := by norm_num
  rw [h256, h65536]
  omega

theorem byte16_swap_lt {x : Nat} (hx : x < 65536) : byte16_swap x < 65536 := by
  rw [byte16_swap_eq hx]; omega

theorem byte32_swap_eq {x : Nat} (hx : x < 4294967296) :
    byte32_swap x =
      x % 256 * 16777216 + x / 256 % 256 * 65536 + x / 65536 % 256 * 256 + x / 16777216 := by
  have e0 : (x &&& 0x000000FF) <<< 24 = 2 ^ 24 * (x % 256) := by
    rw [show (0x000000FF : Nat) = 2 ^ 8 - 1 from rfl, Nat.and_pow_two_sub_one_eq_mod,
        Nat.shiftLeft_eq, Nat.mul_comm]
    try norm_num
  have e1 : (x &&& 0x0000FF00) <<< 8 = 2 ^ 16 * (x / 256 % 256) := by
    rw [show (0x0000FF00 : Nat) = (2 ^ 8 - 1) <<< 8 from rfl, and_shiftLeft_mask,
        Nat.and_pow_two_sub_one_eq_mod, Nat.shiftRight_eq_div_pow,
        Nat.shiftLeft_eq, Nat.shiftLeft_eq]
    have h8 : (2 : Nat) ^ 8 = 256 := by norm_num
    rw [h8]
    try ring
  have e2 : (x &&& 0x00FF0000) >>> 8 = 2 ^ 8 * (x / 65536 % 256) := by
    rw [show (0x00FF0000 : Nat) = (2 ^ 8 - 1) <<< 16 from rfl, and_shiftLeft_mask,
        Nat.and_pow_two_sub_one_eq_mod, Nat.shiftRight_eq_div_pow,
        Nat.shiftLeft_eq, Nat.shiftRight_eq_div_pow]
    have h16 : (2 : Nat) ^ 16 = 65536 := by norm_num
    have h8 : (2 : Nat) ^ 8 = 256 := by norm_num
    rw [h16, h8]
    omega
  have e3 : (x &&& 0xFF000000) >>> 24 = x / 16777216 % 256 := by
    rw [show (0xFF000000 : Nat) = (2 ^ 8 - 1) <<< 24 from rfl, and_shiftLeft_mask,
        Nat.and_pow_two_sub_one_eq_mod, Nat.shiftRight_eq_div_pow,
        Nat.shiftLeft_eq, Nat.shiftRight_eq_div_pow]
    have h24 : (2 : Nat) ^ 24 = 16777216 := by norm_num
    have h8 : (2 : Nat) ^ 8 = 256 := by norm_num
    rw [h24, h8]
    omega
  have hb3 : x / 16777216 % 256 < 2 ^ 8 := by omega
  rw [byte32_swap, e0, e1, e2, e3, Nat.or_assoc, Nat.or_assoc,
      ← Nat.mul_add_lt_is_or hb3 (x / 65536 % 256)]
  have hs23 : 2 ^ 8 * (x / 65536 % 256) + x / 16777216 % 256 < 2 ^ 16 := by
    have h8 : (2 : Nat) ^ 8 = 256 := by norm_num
    have h16 : (2 : Nat) ^ 16 = 65536 := by norm_num
    rw [h8, h16]; omega
  rw [← Nat.mul_add_lt_is_or hs23 (x / 256 % 256)]
  have hs123 : 2 ^ 16 * (x / 256 % 256) + (2 ^ 8 * (x / 65536 % 256) + x / 16777216 % 256) <
      2 ^ 24 := by
    have h8 : (2 : Nat) ^ 8 = 256 := by norm_num
    have h16 : (2 : Nat) ^ 16 = 65536 := by norm_num
    have h24 : (2 : Nat) ^ 24 = 16777216 := by norm_num
    rw [h8, h16, h24]; omega
  rw [← Nat.mul_add_lt_is_or hs123 (x % 256)]
  have h8 : (2 : Nat) ^ 8 = 256 := by norm_num
  have h16 : (2 : Nat) ^ 16 = 65536 := by norm_num
  have h24 : (2 : Nat) ^ 24 = 16777216 := by norm_num
  rw [h8, h16, h24]
  omega

theorem byte32_swap_lt {x : Nat} (hx : x < 4294967296) : byte32_swap x < 4294967296 := by
  rw [byte32_swap_eq hx]; omega

/-- C9: the byte-order swaps are involutive: `byte16_swap (byte16_swap x) = x`
for every 16-bit `x` and `byte32_swap (byte32_swap x) = x` for every 32-bit
`x` (hence in particular for 0, all-ones and single-byte-set patterns). -/
theorem c9_swap_involutive :
    (∀ x : Nat, x < 2 ^ 16 → byte16_swap (byte16_swap x) = x) ∧
    (∀ x : Nat, x < 2 ^ 32 → byte32_swap (byte32_swap x) = x) := by
  constructor
  · intro x hx
    have hx' : x < 65536 := by omega
    rw [byte16_swap_eq hx', byte16_swap_eq (by omega : x % 256 * 256 + x / 256 < 65536)]
    omega
  · intro x hx
    have hx' : x < 4294967296 := by omega
    have key : ∀ b0 b1 b2 b3 : Nat, b0 < 256 → b1 < 256 → b2 < 256 → b3 < 256 →
        byte32_swap (b0 * 16777216 + b1 * 65536 + b2 * 256 + b3) =
          b3 * 16777216 + b2 * 65536 + b1 * 256 + b0 := by
      intro b0 b1 b2 b3 h0 h1 h2 h3
      rw [byte32_swap_eq (by omega)]
      have e1 : (b0 * 16777216 + b1 * 65536 + b2 * 256 + b3) % 256 = b3 := by omega
      have e2 : (b0 * 16777216 + b1 * 65536 + b2 * 256 + b3) / 256 % 256 = b2 := by omega
      have e3 : (b0 * 16777216 + b1 * 65536 + b2 * 256 + b3) / 65536 % 256 = b1 := by omega
      have e4 : (b0 * 16777216 + b1 * 65536 + b2 * 256 + b3) / 16777216 = b0 := by omega
      rw [e1, e2, e3, e4]
    rw [byte32_swap_eq hx',
        key (x % 256) (x / 256 % 256) (x / 65536 % 256) (x / 16777216)
          (by omega) (by omega) (by omega) (by omega)]
    omega

/-- Witness for C9 at the boundary patterns named by the claim. -/
theorem c9_swap_involutive_witness :
    byte16_swap (byte16_swap 0x0000) = 0x0000 ∧
    byte16_swap (byte16_swap 0xFFFF) = 0xFFFF ∧
    byte16_swap (byte16_swap 0x0100) = 0x0100 ∧
    byte32_swap (byte32_swap 0xFFFFFFFF) = 0xFFFFFFFF ∧
    byte32_swap (byte32_swap 0x00FF0000) = 0x00FF0000 :=
  ⟨c9_swap_involutive.1 0x0000 (by decide), c9_swap_involutive.1 0xFFFF (by decide),
   c9_swap_involutive.1 0x0100 (by decide), c9_swap_involutive.2 0xFFFFFFFF (by decide),
   c9_swap_involutive.2 0x00FF0000 (by decide)⟩

/-! ### Record collector (src/main.c) -/

set_option maxRecDepth 8192 in
/-- C8: the collector starts at capacity 0; an append that finds the length
equal to the capacity grows the capacity by exactly 128 (0→128, 128→256, ...)
and counts one growth event; any other append changes neither capacity nor
growth count; `length ≤ capacity` is preserved by every append; and appending
129 records to the empty collector triggers exactly two growth events (while
128 appends trigger only one). -/
theorem c8_collector_growth :
    collector_empty.capacity = 0 ∧
    (∀ c : Collector, c.length = c.capacity →
      (collector_append c).capacity = c.capacity + 128 ∧
      (collector_append c).growths = c.growths + 1) ∧
    (∀ c : Collector, c.length ≠ c.capacity →
      (collector_append c).capacity = c.capacity ∧
      (collector_append c).growths = c.growths) ∧
    (∀ c : Collector, c.length ≤ c.capacity →
      (collector_append c).length ≤ (collector_append c).capacity) ∧
    (collector_appendN 129 collector_empty).growths = 2 ∧
    (collector_appendN 128 collector_empty).growths = 1 := by
  refine ⟨rfl, ?_, ?_, ?_, by decide, by decide⟩
  · intro c h
    have hstep : collector_append c =
        { length := c.length + 1,
          capacity := if c.capacity ≠ 0 then c.capacity + 128 else 128,
          growths := c.growths + 1 } := by
      simp [collector_append, h]
    rw [hstep]
    refine ⟨?_, rfl⟩
    dsimp only
    split <;> omega
  · intro c h
    simp [collector_append, h]
  · intro c h
    by_cases hc : c.length = c.capacity
    · simp only [collector_append, if_pos hc]
      split <;> simp <;> omega
    · simp only [collector_append, if_neg hc]
      simpa using Nat.succ_le_of_lt (Nat.lt_of_le_of_ne h hc)

/-- Witness for C8 at concrete collector states. -/
theorem c8_collector_growth_witness :
    (collector_append ⟨0, 0, 0⟩).capacity = 0 + 128 ∧
    (collector_append ⟨3, 128, 1⟩).capacity = 128 ∧
    (collector_append ⟨5, 128, 1⟩).length ≤ (collector_append ⟨5, 128, 1⟩).capacity :=
  ⟨(c8_collector_growth.2.1 ⟨0, 0, 0⟩ rfl).1,
   (c8_collector_growth.2.2.1 ⟨3, 128, 1⟩ (by decide)).1,
   c8_collector_growth.2.2.2.1 ⟨5, 128, 1⟩ (by decide)⟩

/-! ### Calibration (src/thermal_calibrated.c, src/sun_sensors_calibrated.c) -/

/-- C3: thermal calibration returns `byte16_swap(raw) * 0.01` for both
temperatures and `byte32_swap(timestamp)` as timestamp; sun-vector
calibration returns `byte16_swap(raw) / 16384` for x, y, z with the
timestamp normalised identically, so the two records built from the same
frame carry the same timestamp; wire big-endian raw CPU_C = 2500 (memory
image 0xC409) yields 25.00 and raw sun vector x = 16384 (image 0x0040)
yields 1.0. -/
theorem c3_calibration :
    (∀ (t : ThermalTelemetrySchema) (ts : Nat),
      thermal_to_calibrated t ts =
        { thermal_telemetry_timestamp := byte32_swap ts,
          CPU_C := (int16_val (byte16_swap t.CPU_C) : ℚ) * 0.01,
          mirror_cell_C := (int16_val (byte16_swap t.mirror_cell_C) : ℚ) * 0.01 }) ∧
    (∀ (a : AOCSTelemetrySchema) (ts : Nat),
      sun_sensors_to_calibrated a ts =
        { sun_sensors_telemetry_timestamp := byte32_swap ts,
          sun_vector_x := (int16_val (byte16_swap a.sunvectorX) : ℚ) / 16384.0,
          sun_vector_y := (int16_val (byte16_swap a.sunvectorY) : ℚ) / 16384.0,
          sun_vector_z := (int16_val (byte16_swap a.sunvectorZ) : ℚ) / 16384.0 }) ∧
    (∀ f : BeaconFrame,
      (thermal_to_calibrated f.thermal f.platform.rtc_s).thermal_telemetry_timestamp =
        (sun_sensors_to_calibrated f.aocs f.platform.rtc_s).sun_sensors_telemetry_timestamp) ∧
    (thermal_to_calibrated ⟨0, 0xC409, 0⟩ 0).CPU_C = 25 ∧
    (sun_sensors_to_calibrated ⟨0, 0, 0x0040, 0, 0, 0, 0, 0, 0, 0, 0, 0, 0, 0, 0, 0, 0, 0, 0⟩
      0).sun_vector_x = 1 := by
  refine ⟨fun t ts => rfl, fun a ts => rfl, fun f => rfl, ?_, ?_⟩
  · have h1 : byte16_swap 0xC409 = 2500 := by decide
    show (int16_val (byte16_swap 0xC409) : ℚ) * 0.01 = 25
    rw [h1]
    norm_num [int16_val]
  · have h1 : byte16_swap 0x0040 = 16384 := by decide
    show (int16_val (byte16_swap 0x0040) : ℚ) / 16384.0 = 1
    rw [h1]
    norm_num [int16_val]

/-! ### Dedup loop (src/extended_tools.c) -/

theorem adr_fun_length_le (cmp : α → α → Int) (a : α) (l : List α) :
    (adr_fun cmp a l).length ≤ l.length := by
  induction l generalizing a with
  | nil => simp [adr_fun]
  | cons c r ih =>
    simp only [adr_fun]
    split
    · simpa using ih c
    · exact le_trans (ih a) (by simp)

theorem adr_loop_terminal [Inhabited α] (cmp : α → α → Int) (p : List α) (keep i : Nat)
    (h : p.length ≤ i) : adr_loop cmp p.length p keep i = (keep, p) := by
  rw [adr_loop]
  rw [dif_neg (by omega)]

theorem adr_loop_spec [Inhabited α] (cmp : α → α → Int) :
    ∀ (m : Nat) (p : List α) (keep i : Nat),
      p.length - i ≤ m → 1 ≤ keep → keep ≤ i → i ≤ p.length →
      adr_loop cmp p.length p keep i =
        (keep + (adr_fun cmp (p.getD (keep - 1) default) (p.drop i)).length,
         (p.take keep ++ adr_fun cmp (p.getD (keep - 1) default) (p.drop i)) ++
           p.drop (keep + (adr_fun cmp (p.getD (keep - 1) default) (p.drop i)).length)) := by
  intro m
  induction m with
  | zero =>
    intro p keep i hm hk1 hki hi
    have hieq : p.length ≤ i := by omega
    rw [adr_loop_terminal cmp p keep i hieq,
        List.drop_eq_nil_of_le hieq]
    simp [adr_fun]
  | succ m ih =>
    intro p keep i hm hk1 hki hi
    by_cases hlt : i < p.length
    · have hgetD : p.getD i default = p[i] := by
        simp [List.getElem?_eq_getElem hlt]
      have hdrop : p.drop i = p.getD i default :: p.drop (i + 1) := by
        rw [List.drop_eq_getElem_cons hlt, hgetD]
      rw [adr_loop, dif_pos hlt]
      by_cases hc : cmp (p.getD i default) (p.getD (keep - 1) default) ≠ 0
      · rw [if_pos hc]
        by_cases hkeq : keep = i
        · rw [if_neg (by simp [hkeq])]
          rw [ih p (keep + 1) (i + 1) (by omega) (by omega) (by omega) (by omega)]
          have hsucc : keep + 1 - 1 = keep := by omega
          have htk : p.take (keep + 1) = p.take keep ++ [p.getD i default] := by
            rw [hgetD, hkeq, List.take_succ, List.getElem?_eq_getElem hlt]
            simp
          rw [hsucc, htk, hdrop]
          have hgk : p.getD keep default = p.getD i default := by rw [hkeq]
          rw [hgk]
          simp only [adr_fun, if_pos hc]
          have harith : keep + 1 + (adr_fun cmp (p.getD i default) (p.drop (i + 1))).length =
              keep + (p.getD i default :: adr_fun cmp (p.getD i default) (p.drop (i + 1))).length := by
            simp only [List.length_cons]; omega
          rw [harith]
          simp [List.append_assoc]
        · rw [if_pos hkeq]
          have hklt : keep < p.length := by omega
          have hlen : (p.set keep (p.getD i default)).length = p.length := by simp
          have hrec := ih (p.set keep (p.getD i default)) (keep + 1) (i + 1)
            (by rw [hlen]; omega) (by omega) (by omega) (by rw [hlen]; omega)
          rw [hlen] at hrec
          rw [hrec]
          have hsucc : keep + 1 - 1 = keep := by omega
          have hgset : (p.set keep (p.getD i default)).getD keep default =
              p.getD i default := by
            simp [List.getElem?_set_self hklt]
          have hdset : (p.set keep (p.getD i default)).drop (i + 1) = p.drop (i + 1) := by
            rw [List.drop_set]
            rw [if_pos (by omega)]
          have htkset : (p.set keep (p.getD i default)).take (keep + 1) =
              p.take keep ++ [p.getD i default] := by
            rw [List.take_succ]
            rw [List.getElem?_set_self (by simpa using hklt)]
            rw [List.set_take]
            rw [List.set_eq_of_length_le (by simp [List.length_take])]
            try simp [hgetD, List.take_succ, List.getElem?_eq_getElem hlt]
          rw [hsucc, hgset, hdset, htkset, hdrop]
          simp only [adr_fun, if_pos hc]
          have hddrop : (p.set keep (p.getD i default)).drop
              (keep + 1 + (adr_fun cmp (p.getD i default) (p.drop (i + 1))).length) =
              p.drop (keep + 1 + (adr_fun cmp (p.getD i default) (p.drop (i + 1))).length) := by
            rw [List.drop_set, if_pos (by omega)]
          rw [hddrop]
          have harith : keep + 1 + (adr_fun cmp (p.getD i default) (p.drop (i + 1))).length =
              keep + (p.getD i default :: adr_fun cmp (p.getD i default) (p.drop (i + 1))).length := by
            simp only [List.length_cons]; omega
          rw [harith]
          simp [List.append_assoc]
      · rw [if_neg hc]
        rw [ih p keep (i + 1) (by omega) hk1 (by omega) (by omega)]
        rw [hdrop]
        simp only [adr_fun, if_neg hc]
    · have hieq : p.length ≤ i := by omega
      rw [adr_loop_terminal cmp p keep i hieq, List.drop_eq_nil_of_le hieq]
      simp [adr_fun]

theorem thermal_cmp_eq_zero_iff (a b : ThermalTelemetryCalibrated) :
    thermal_timestamp_comparator a b = 0 ↔
      a.thermal_telemetry_timestamp = b.thermal_telemetry_timestamp := by
  unfold thermal_timestamp_comparator
  split_ifs with h1 h2
  · constructor
    · intro h; exact absurd h (by norm_num)
    · intro h; omega
  · constructor
    · intro h; exact absurd h (by norm_num)
    · intro h; omega
  · constructor
    · intro h; omega
    · intro h; rfl

theorem adr_fun_eq_firstOfRuns_dropWhile :
    ∀ (l : List ThermalTelemetryCalibrated) (a : ThermalTelemetryCalibrated),
      adr_fun thermal_timestamp_comparator a l =
        firstOfRuns (l.dropWhile
          (fun b => b.thermal_telemetry_timestamp == a.thermal_telemetry_timestamp)) := by
  intro l
  induction l with
  | nil => intro a; simp [adr_fun, firstOfRuns]
  | cons c r ih =>
    intro a
    by_cases h : c.thermal_telemetry_timestamp = a.thermal_telemetry_timestamp
    · have hc0 : thermal_timestamp_comparator c a = 0 := (thermal_cmp_eq_zero_iff c a).mpr h
      simp only [adr_fun, hc0]
      rw [if_neg (by simp)]
      rw [List.dropWhile_cons_of_pos (by simp [h])]
      exact ih a
    · have hc0 : thermal_timestamp_comparator c a ≠ 0 :=
        fun hh => h ((thermal_cmp_eq_zero_iff c a).mp hh)
      simp only [adr_fun]
      rw [if_pos hc0]
      rw [List.dropWhile_cons_of_neg (by simp [h])]
      rw [firstOfRuns]
      rw [ih c]

theorem firstOfRuns_cons (a : ThermalTelemetryCalibrated)
    (rest : List ThermalTelemetryCalibrated) :
    firstOfRuns (a :: rest) = a :: adr_fun thermal_timestamp_comparator a rest := by
  rw [firstOfRuns, adr_fun_eq_firstOfRuns_dropWhile rest a]

theorem firstOfRuns_subset :
    ∀ (m : Nat) (l : List ThermalTelemetryCalibrated), l.length ≤ m →
      ∀ x ∈ firstOfRuns l, x ∈ l := by
  intro m
  induction m with
  | zero =>
    intro l hl x hx
    have : l = [] := List.length_eq_zero.mp (by omega)
    subst this
    simp [firstOfRuns] at hx
  | succ m ih =>
    intro l hl x hx
    cases l with
    | nil => simp [firstOfRuns] at hx
    | cons a rest =>
      rw [firstOfRuns] at hx
      rcases List.mem_cons.mp hx with h | h
      · simp [h]
      · have hlen : (rest.dropWhile (fun b =>
            b.thermal_telemetry_timestamp == a.thermal_telemetry_timestamp)).length ≤ m := by
          have := (List.dropWhile_sublist (l := rest) (fun b =>
            b.thermal_telemetry_timestamp == a.thermal_telemetry_timestamp)).length_le
          simp at hl
          omega
        have hx' := ih _ hlen x h
        exact List.mem_cons_of_mem a (List.dropWhile_subset _ hx')

theorem lt_of_mem_dropWhile_ts (a : ThermalTelemetryCalibrated)
    (rest : List ThermalTelemetryCalibrated)
    (hp : List.Pairwise (fun x y =>
      x.thermal_telemetry_timestamp ≤ y.thermal_telemetry_timestamp) rest)
    (hall : ∀ x ∈ rest,
      a.thermal_telemetry_timestamp ≤ x.thermal_telemetry_timestamp) :
    ∀ x ∈ rest.dropWhile
        (fun b => b.thermal_telemetry_timestamp == a.thermal_telemetry_timestamp),
      a.thermal_telemetry_timestamp < x.thermal_telemetry_timestamp := by
  intro x hx
  cases hr : rest.dropWhile
      (fun b => b.thermal_telemetry_timestamp == a.thermal_telemetry_timestamp) with
  | nil => rw [hr] at hx; simp at hx
  | cons h t =>
    have hne : h.thermal_telemetry_timestamp ≠ a.thermal_telemetry_timestamp := by
      have h2 := List.head?_dropWhile_not
        (fun b => b.thermal_telemetry_timestamp == a.thermal_telemetry_timestamp) rest
      rw [hr] at h2
      simpa using h2
    have hmemh : h ∈ rest := List.dropWhile_subset _ (by rw [hr]; simp)
    have hah : a.thermal_telemetry_timestamp < h.thermal_telemetry_timestamp :=
      lt_of_le_of_ne (hall h hmemh) (Ne.symm hne)
    have hpair : List.Pairwise (fun x y =>
        x.thermal_telemetry_timestamp ≤ y.thermal_telemetry_timestamp) (h :: t) := by
      rw [← hr]
      exact List.Pairwise.sublist (List.dropWhile_sublist _) hp
    rw [hr] at hx
    rcases List.mem_cons.mp hx with rfl | hxt
    · exact hah
    · exact lt_of_lt_of_le hah ((List.pairwise_cons.mp hpair).1 x hxt)

theorem firstOfRuns_length_sorted :
    ∀ (m : Nat) (l : List ThermalTelemetryCalibrated), l.length ≤ m →
      List.Pairwise (fun x y =>
        x.thermal_telemetry_timestamp ≤ y.thermal_telemetry_timestamp) l →
      (firstOfRuns l).length =
        ((l.map (fun x => x.thermal_telemetry_timestamp)).toFinset).card := by
  intro m
  induction m with
  | zero =>
    intro l hl _
    have : l = [] := List.length_eq_zero.mp (by omega)
    subst this
    simp [firstOfRuns]
  | succ m ih =>
    intro l hl hs
    cases l with
    | nil => simp [firstOfRuns]
    | cons a rest =>
      have hsrest := (List.pairwise_cons.mp hs).2
      have hall := (List.pairwise_cons.mp hs).1
      have hr'sorted : List.Pairwise (fun x y =>
          x.thermal_telemetry_timestamp ≤ y.thermal_telemetry_timestamp)
          (rest.dropWhile (fun b =>
            b.thermal_telemetry_timestamp == a.thermal_telemetry_timestamp)) :=
        List.Pairwise.sublist (List.dropWhile_sublist _) hsrest
      have hlen : (rest.dropWhile (fun b =>
          b.thermal_telemetry_timestamp == a.thermal_telemetry_timestamp)).length ≤ m := by
        have := (List.dropWhile_sublist (l := rest) (fun b =>
          b.thermal_telemetry_timestamp == a.thermal_telemetry_timestamp)).length_le
        simp at hl
        omega
      have hins : insert a.thermal_telemetry_timestamp
            ((rest.map (fun x => x.thermal_telemetry_timestamp)).toFinset) =
          insert a.thermal_telemetry_timestamp
            (((rest.dropWhile (fun b =>
              b.thermal_telemetry_timestamp == a.thermal_telemetry_timestamp)).map
                (fun x => x.thermal_telemetry_timestamp)).toFinset) := by
        apply Finset.ext
        intro t
        simp only [Finset.mem_insert, List.mem_toFinset, List.mem_map]
        constructor
        · rintro (h | ⟨x, hx, rfl⟩)
          · exact Or.inl h
          · rw [← List.takeWhile_append_dropWhile (fun b =>
              b.thermal_telemetry_timestamp == a.thermal_telemetry_timestamp) (l := rest)] at hx
            rcases List.mem_append.mp hx with h1 | h1
            · left
              have := List.mem_takeWhile_imp h1
              simpa using this
            · exact Or.inr ⟨x, h1, rfl⟩
        · rintro (h | ⟨x, hx, rfl⟩)
          · exact Or.inl h
          · exact Or.inr ⟨x, List.dropWhile_subset _ hx, rfl⟩
      have hnot : a.thermal_telemetry_timestamp ∉
          ((rest.dropWhile (fun b =>
            b.thermal_telemetry_timestamp == a.thermal_telemetry_timestamp)).map
              (fun x => x.thermal_telemetry_timestamp)).toFinset := by
        intro hmem
        simp only [List.mem_toFinset, List.mem_map] at hmem
        obtain ⟨x, hx, hxeq⟩ := hmem
        have := lt_of_mem_dropWhile_ts a rest hsrest hall x hx
        omega
      rw [firstOfRuns]
      simp only [List.length_cons, List.map_cons, List.toFinset_cons]
      rw [hins, Finset.card_insert_of_not_mem hnot,
          ih _ hlen hr'sorted]

theorem firstOfRuns_sorted :
    ∀ (m : Nat) (l : List ThermalTelemetryCalibrated), l.length ≤ m →
      List.Pairwise (fun x y =>
        x.thermal_telemetry_timestamp ≤ y.thermal_telemetry_timestamp) l →
      List.Pairwise (fun x y =>
        x.thermal_telemetry_timestamp < y.thermal_telemetry_timestamp) (firstOfRuns l) := by
  intro m
  induction m with
  | zero =>
    intro l hl _
    have : l = [] := List.length_eq_zero.mp (by omega)
    subst this
    simp [firstOfRuns]
  | succ m ih =>
    intro l hl hs
    cases l with
    | nil => simp [firstOfRuns]
    | cons a rest =>
      have hsrest := (List.pairwise_cons.mp hs).2
      have hall := (List.pairwise_cons.mp hs).1
      have hr'sorted : List.Pairwise (fun x y =>
          x.thermal_telemetry_timestamp ≤ y.thermal_telemetry_timestamp)
          (rest.dropWhile (fun b =>
            b.thermal_telemetry_timestamp == a.thermal_telemetry_timestamp)) :=
        List.Pairwise.sublist (List.dropWhile_sublist _) hsrest
      have hlen : (rest.dropWhile (fun b =>
          b.thermal_telemetry_timestamp == a.thermal_telemetry_timestamp)).length ≤ m := by
        have := (List.dropWhile_sublist (l := rest) (fun b =>
          b.thermal_telemetry_timestamp == a.thermal_telemetry_timestamp)).length_le
        simp at hl
        omega
      rw [firstOfRuns]
      rw [List.pairwise_cons]
      refine ⟨?_, ih _ hlen hr'sorted⟩
      intro x hx
      have hxmem := firstOfRuns_subset _ _ (le_refl _) x hx
      exact lt_of_mem_dropWhile_ts a rest hsrest hall x hxmem

theorem adr_some_cons [Inhabited α] (cmp : α → α → Int) (a : α) (rest : List α)
    (size : Nat) (hsz : size ≠ 0) :
    array_duplicate_removal (some (a :: rest)) (a :: rest).length size (some cmp) =
      (1 + (adr_fun cmp a rest).length,
       (a :: adr_fun cmp a rest) ++
         (a :: rest).drop (1 + (adr_fun cmp a rest).length)) := by
  have hg : ¬(size = 0 ∨ (a :: rest).length = 0) := by simp [hsz]
  show (if size = 0 ∨ (a :: rest).length = 0 then ((0 : Nat), a :: rest)
        else adr_loop cmp (a :: rest).length (a :: rest) 1 1) = _
  rw [if_neg hg]
  have hspec := adr_loop_spec cmp (a :: rest).length (a :: rest) 1 1
    (by omega) (by omega) (by omega) (by simp)
  rw [hspec]
  rfl

/-- C4: on a series sorted ascending by timestamp, array_duplicate_removal
with the timestamp comparator returns the number of distinct timestamps, and
the positions up to that length hold, in strictly ascending timestamp order,
the first element of each run of timestamp-equal records; in particular the
spec's example with timestamps `[5,3,3,1,5]` sorts to `[1,3,3,5,5]` and
compacts to length 3 keeping the post-sort-first record of each run, with
kept timestamps `[1,3,5]`. -/
theorem c4_dedup_sorted (l : List ThermalTelemetryCalibrated) (size : Nat)
    (hsz : size ≠ 0)
    (hs : l.Sorted (fun x y =>
      x.thermal_telemetry_timestamp ≤ y.thermal_telemetry_timestamp)) :
    ((array_duplicate_removal (some l) l.length size (some thermal_timestamp_comparator)).1 =
        ((l.map (fun x => x.thermal_telemetry_timestamp)).toFinset).card ∧
      (array_duplicate_removal (some l) l.length size
          (some thermal_timestamp_comparator)).2.take
        (array_duplicate_removal (some l) l.length size
          (some thermal_timestamp_comparator)).1 = firstOfRuns l ∧
      ((firstOfRuns l).map (fun x => x.thermal_telemetry_timestamp)).Sorted (· < ·)) ∧
    (qsort_by_timestamp exThermalInput = exThermalSorted ∧
      array_duplicate_removal (some exThermalSorted) 5 12
          (some thermal_timestamp_comparator) =
        (3, [⟨1, 4, 0⟩, ⟨3, 2, 0⟩, ⟨5, 1, 0⟩, ⟨5, 1, 0⟩, ⟨5, 5, 0⟩]) ∧
      ([(⟨1, 4, 0⟩ : ThermalTelemetryCalibrated), ⟨3, 2, 0⟩, ⟨5, 1, 0⟩]).map
          (fun x => x.thermal_telemetry_timestamp) = [1, 3, 5]) := by
  have hp : List.Pairwise (fun x y =>
      x.thermal_telemetry_timestamp ≤ y.thermal_telemetry_timestamp) l := hs
  constructor
  · cases l with
    | nil =>
      refine ⟨by simp [array_duplicate_removal], ?_, by simp [firstOfRuns]⟩
      simp [array_duplicate_removal]
      rw [firstOfRuns]
    | cons a rest =>
      rw [adr_some_cons thermal_timestamp_comparator a rest size hsz]
      dsimp only
      have h1 : firstOfRuns (a :: rest) = a :: adr_fun thermal_timestamp_comparator a rest :=
        firstOfRuns_cons a rest
      refine ⟨?_, ?_, ?_⟩
      · have h2 := firstOfRuns_length_sorted (a :: rest).length (a :: rest) (le_refl _) hp
        rw [h1] at h2
        simp only [List.length_cons] at h2
        omega
      · rw [List.take_left' (by simp [Nat.add_comm])]
        exact h1.symm
      · exact List.pairwise_map.mpr (firstOfRuns_sorted _ _ (le_refl _) hp)
  · refine ⟨by decide, ?_, by decide⟩
    have hc : array_duplicate_removal (some exThermalSorted) 5 12
        (some thermal_timestamp_comparator) =
        array_duplicate_removal (some exThermalSorted) exThermalSorted.length 12
          (some thermal_timestamp_comparator) := rfl
    rw [hc,
      show exThermalSorted = ⟨1, 4, 0⟩ ::
        [(⟨3, 2, 0⟩ : ThermalTelemetryCalibrated), ⟨3, 3, 0⟩, ⟨5, 1, 0⟩, ⟨5, 5, 0⟩] from rfl,
      adr_some_cons thermal_timestamp_comparator _ _ 12 (by decide)]
    decide

/-- Witness for C4 at the spec's sorted example list. -/
theorem c4_dedup_sorted_witness :
    ((array_duplicate_removal (some exThermalSorted) exThermalSorted.length 12
          (some thermal_timestamp_comparator)).1 =
        ((exThermalSorted.map (fun x => x.thermal_telemetry_timestamp)).toFinset).card ∧
      (array_duplicate_removal (some exThermalSorted) exThermalSorted.length 12
          (some thermal_timestamp_comparator)).2.take
        (array_duplicate_removal (some exThermalSorted) exThermalSorted.length 12
          (some thermal_timestamp_comparator)).1 = firstOfRuns exThermalSorted ∧
      ((firstOfRuns exThermalSorted).map
          (fun x => x.thermal_telemetry_timestamp)).Sorted (· < ·)) ∧
    (qsort_by_timestamp exThermalInput = exThermalSorted ∧
      array_duplicate_removal (some exThermalSorted) 5 12
          (some thermal_timestamp_comparator) =
        (3, [⟨1, 4, 0⟩, ⟨3, 2, 0⟩, ⟨5, 1, 0⟩, ⟨5, 1, 0⟩, ⟨5, 5, 0⟩]) ∧
      ([(⟨1, 4, 0⟩ : ThermalTelemetryCalibrated), ⟨3, 2, 0⟩, ⟨5, 1, 0⟩]).map
          (fun x => x.thermal_telemetry_timestamp) = [1, 3, 5]) :=
  c4_dedup_sorted exThermalSorted 12 (by decide) (by decide)

/-- C10: array_duplicate_removal returns 0 for a NULL array, a NULL
comparator, element size 0 or element count 0 (leaving the array untouched);
for a valid non-empty input of length n the returned new length k satisfies
1 ≤ k ≤ n. -/
theorem c10_degenerate_and_bounds :
    (∀ (n size : Nat)
        (cmp : Option (ThermalTelemetryCalibrated → ThermalTelemetryCalibrated → Int)),
      array_duplicate_removal none n size cmp = (0, [])) ∧
    (∀ (p : List ThermalTelemetryCalibrated) (n size : Nat),
      array_duplicate_removal (some p) n size none = (0, p)) ∧
    (∀ (p : List ThermalTelemetryCalibrated) (n : Nat)
        (cmp : ThermalTelemetryCalibrated → ThermalTelemetryCalibrated → Int),
      array_duplicate_removal (some p) n 0 (some cmp) = (0, p)) ∧
    (∀ (p : List ThermalTelemetryCalibrated) (size : Nat)
        (cmp : ThermalTelemetryCalibrated → ThermalTelemetryCalibrated → Int),
      array_duplicate_removal (some p) 0 size (some cmp) = (0, p)) ∧
    (∀ (p : List ThermalTelemetryCalibrated) (size : Nat)
        (cmp : ThermalTelemetryCalibrated → ThermalTelemetryCalibrated → Int),
      size ≠ 0 → p ≠ [] →
      1 ≤ (array_duplicate_removal (some p) p.length size (some cmp)).1 ∧
      (array_duplicate_removal (some p) p.length size (some cmp)).1 ≤ p.length) := by
  refine ⟨fun n size cmp => rfl, fun p n size => rfl,
    fun p n cmp => by simp [array_duplicate_removal],
    fun p size cmp => by simp [array_duplicate_removal], ?_⟩
  intro p size cmp hsz hne
  cases p with
  | nil => exact absurd rfl hne
  | cons a rest =>
    rw [adr_some_cons cmp a rest size hsz]
    dsimp only
    have := adr_fun_length_le cmp a rest
    simp only [List.length_cons]
    omega

/-- Witness for C10 at a concrete two-element series. -/
theorem c10_degenerate_and_bounds_witness :
    1 ≤ (array_duplicate_removal
        (some [(⟨7, 0, 0⟩ : ThermalTelemetryCalibrated), ⟨7, 1, 0⟩])
        ([(⟨7, 0, 0⟩ : ThermalTelemetryCalibrated), ⟨7, 1, 0⟩]).length 12
        (some thermal_timestamp_comparator)).1 ∧
    (array_duplicate_removal
        (some [(⟨7, 0, 0⟩ : ThermalTelemetryCalibrated), ⟨7, 1, 0⟩])
        ([(⟨7, 0, 0⟩ : ThermalTelemetryCalibrated), ⟨7, 1, 0⟩]).length 12
        (some thermal_timestamp_comparator)).1 ≤
      ([(⟨7, 0, 0⟩ : ThermalTelemetryCalibrated), ⟨7, 1, 0⟩]).length :=
  c10_degenerate_and_bounds.2.2.2.2 [⟨7, 0, 0⟩, ⟨7, 1, 0⟩] 12
    thermal_timestamp_comparator (by decide) (by decide)

/-! ### Synchronizer (marker search of read_data_frame) -/

theorem markerAt_append_iff (m c t : List Nat) (j : Nat) (hj : j ≤ c.length) :
    markerAt m (c ++ t) j ↔ markerAt m c j := by
  unfold markerAt
  rw [List.take_append_of_le_length hj]
  constructor
  · rintro ⟨h1, _, h3⟩; exact ⟨h1, hj, h3⟩
  · rintro ⟨h1, _, h3⟩
    refine ⟨h1, ?_, h3⟩
    simp only [List.length_append]
    omega

theorem win_append (c : List Nat) (b : Nat) :
    (c ++ [b]).drop ((c ++ [b]).length - 3) =
      (if (c.drop (c.length - 3)).length < 3
       then c.drop (c.length - 3) ++ [b]
       else (c.drop (c.length - 3)).tail ++ [b]) := by
  have hlen : (c.drop (c.length - 3)).length = c.length - (c.length - 3) := by simp
  by_cases hc : c.length < 3
  · rw [if_pos (by omega)]
    have h1 : c.length - 3 = 0 := by omega
    have h2 : (c ++ [b]).length - 3 = 0 := by simp; omega
    rw [h1, h2]
    simp
  · rw [if_neg (by omega)]
    rw [List.tail_drop]
    rw [show (c ++ [b]).length - 3 = c.length - 3 + 1 by simp; omega]
    rw [List.drop_append_of_le_length (by omega)]

theorem winEq_iff_markerAt (m : List Nat) (hm : m.length = 3) (c : List Nat) (b : Nat) :
    (c ++ [b]).drop ((c ++ [b]).length - 3) = m ↔
      markerAt m (c ++ [b]) (c.length + 1) := by
  unfold markerAt
  have hlen2 : (c ++ [b]).length = c.length + 1 := by simp
  rw [List.take_of_length_le (by omega)]
  constructor
  · intro h
    have hlend := congrArg List.length h
    simp only [List.length_drop, hlen2, hm] at hlend
    refine ⟨by omega, by omega, ?_⟩
    rw [← hlen2]
    exact h
  · rintro ⟨h1, _, h3⟩
    rw [hlen2]
    exact h3

theorem sync_loop_win_spec (hd : BeaconHeader) :
    ∀ (s c : List Nat),
      (∀ j, ¬ markerAt [hd.beacon_id.b0, hd.beacon_id.b1, hd.beacon_id.b2] c j) →
      ∀ r, (sync_loop hd (c.drop (c.length - 3)) s = some r ↔
        ∃ k, markerAt [hd.beacon_id.b0, hd.beacon_id.b1, hd.beacon_id.b2] (c ++ s) k ∧
          (∀ j < k, ¬ markerAt [hd.beacon_id.b0, hd.beacon_id.b1, hd.beacon_id.b2]
            (c ++ s) j) ∧
          r = (c ++ s).drop k) := by
  intro s
  induction s with
  | nil =>
    intro c hc r
    simp only [sync_loop, List.append_nil]
    constructor
    · intro h; simp at h
    · rintro ⟨k, hk, -, -⟩
      exact absurd hk (hc k)
  | cons b rest ih =>
    intro c hc r
    rw [sync_loop]
    rw [← win_append c b]
    by_cases hmatch : (c ++ [b]).drop ((c ++ [b]).length - 3) =
        [hd.beacon_id.b0, hd.beacon_id.b1, hd.beacon_id.b2]
    · rw [if_pos hmatch]
      have hk1 : markerAt [hd.beacon_id.b0, hd.beacon_id.b1, hd.beacon_id.b2]
          (c ++ [b]) (c.length + 1) :=
        (winEq_iff_markerAt [hd.beacon_id.b0, hd.beacon_id.b1, hd.beacon_id.b2] rfl c b).mp hmatch
      have hkk : markerAt [hd.beacon_id.b0, hd.beacon_id.b1, hd.beacon_id.b2]
          (c ++ b :: rest) (c.length + 1) := by
        rw [List.append_cons]
        exact (markerAt_append_iff _ (c ++ [b]) rest _ (by simp)).mpr hk1
      constructor
      · intro h
        have hre : rest = r := by simpa using h
        subst hre
        refine ⟨c.length + 1, hkk, ?_, ?_⟩
        · intro j hj hmj
          exact hc j ((markerAt_append_iff _ c (b :: rest) j (by omega)).mp hmj)
        · rw [List.append_cons, List.drop_left' (by simp)]
      · rintro ⟨k, hk, hmin, hr⟩
        have hk_ge : c.length + 1 ≤ k := by
          by_contra hlt
          push_neg at hlt
          exact hc k ((markerAt_append_iff _ c (b :: rest) k (by omega)).mp hk)
        have hk_le : k ≤ c.length + 1 := by
          by_contra hgt
          push_neg at hgt
          exact hmin (c.length + 1) (by omega) hkk
        have hke : k = c.length + 1 := by omega
        subst hke
        rw [hr, List.append_cons, List.drop_left' (by simp)]
    · rw [if_neg hmatch]
      have hc' : ∀ j, ¬ markerAt [hd.beacon_id.b0, hd.beacon_id.b1, hd.beacon_id.b2]
          (c ++ [b]) j := by
        intro j hmj
        rcases Nat.lt_or_ge j (c.length + 1) with hj | hj
        · exact hc j ((markerAt_append_iff _ c [b] j (by omega)).mp hmj)
        · have hjle : j ≤ (c ++ [b]).length := hmj.2.1
          simp only [List.length_append, List.length_cons, List.length_nil] at hjle
          have hje : j = c.length + 1 := by omega
          subst hje
          exact hmatch ((winEq_iff_markerAt [hd.beacon_id.b0, hd.beacon_id.b1, hd.beacon_id.b2] rfl c b).mpr hmj)
      have hih := ih (c ++ [b]) hc' r
      rw [List.append_cons c b rest]
      exact hih

theorem sync_loop_some_iff (hd : BeaconHeader) (s r : List Nat) :
    sync_loop hd [] s = some r ↔
      ∃ k, markerAt [hd.beacon_id.b0, hd.beacon_id.b1, hd.beacon_id.b2] s k ∧
        (∀ j < k, ¬ markerAt [hd.beacon_id.b0, hd.beacon_id.b1, hd.beacon_id.b2] s j) ∧
        r = s.drop k := by
  have hc : ∀ j, ¬ markerAt [hd.beacon_id.b0, hd.beacon_id.b1, hd.beacon_id.b2]
      ([] : List Nat) j := by
    intro j hj
    have h1 := hj.1
    have h2 := hj.2.1
    simp only [List.length_nil] at h2
    omega
  have := sync_loop_win_spec hd s [] hc r
  simpa using this

theorem sync_loop_none_iff (hd : BeaconHeader) (s : List Nat) :
    sync_loop hd [] s = none ↔
      ∀ k, ¬ markerAt [hd.beacon_id.b0, hd.beacon_id.b1, hd.beacon_id.b2] s k := by
  constructor
  · intro hn k hk
    have hex : ∃ k, markerAt [hd.beacon_id.b0, hd.beacon_id.b1, hd.beacon_id.b2] s k :=
      ⟨k, hk⟩
    have hsome := (sync_loop_some_iff hd s (s.drop (Nat.find hex))).mpr
      ⟨Nat.find hex, Nat.find_spec hex, fun j hj => Nat.find_min hex hj, rfl⟩
    rw [hn] at hsome
    simp at hsome
  · intro hall
    cases hs : sync_loop hd [] s with
    | none => rfl
    | some r =>
      obtain ⟨k, hk, -, -⟩ := (sync_loop_some_iff hd s r).mp hs
      exact absurd hk (hall k)

/-- C2: the synchronizer of read_data_frame consumes bytes until the three
most recently read bytes equal the marker — it stops after the first such
position and the remaining stream starts immediately after the marker; when
no window matches, it consumes everything and reports EOF; for marker
FF FF F0 and a stream beginning 00 FF FF FF F0, exactly five bytes are
consumed before section decoding starts. -/
theorem c2_synchronizer (hd : BeaconHeader) :
    (∀ s r, sync_loop hd [] s = some r ↔
      ∃ k, markerAt [hd.beacon_id.b0, hd.beacon_id.b1, hd.beacon_id.b2] s k ∧
        (∀ j < k, ¬ markerAt [hd.beacon_id.b0, hd.beacon_id.b1, hd.beacon_id.b2] s j) ∧
        r = s.drop k) ∧
    (∀ s, sync_loop hd [] s = none ↔
      ∀ k, ¬ markerAt [hd.beacon_id.b0, hd.beacon_id.b1, hd.beacon_id.b2] s k) ∧
    (∀ s r out, sync_loop hd [] s = some r →
      read_data_frame hd s out = readSections r out) ∧
    (∀ s out, sync_loop hd [] s = none →
      read_data_frame hd s out = (READ_EOF, out, [])) ∧
    (∀ payload : List Nat,
      sync_loop ⟨⟨0xFF, 0xFF, 0xF0⟩⟩ [] ([0x00, 0xFF, 0xFF, 0xFF, 0xF0] ++ payload) =
        some payload) := by
  refine ⟨sync_loop_some_iff hd, sync_loop_none_iff hd, ?_, ?_, ?_⟩
  · intro s r out hs
    unfold read_data_frame
    rw [hs]
  · intro s out hs
    unfold read_data_frame
    rw [hs]
  · intro payload
    simp [sync_loop]

/-- Witness for C2: the truncated stream 00 FF FF has no marker, so the call
reports READ_EOF with everything consumed. -/
theorem c2_synchronizer_witness :
    read_data_frame ⟨⟨0xFF, 0xFF, 0xF0⟩⟩ [0x00, 0xFF, 0xFF] default =
      (READ_EOF, default, []) :=
  (c2_synchronizer ⟨⟨0xFF, 0xFF, 0xF0⟩⟩).2.2.2.1 [0x00, 0xFF, 0xFF] default (by decide)

/-! ### Field serialization round-trip -/

theorem encodeField_length (w : Nat) : ∀ v : Nat, (encodeField w v).length = w := by
  induction w with
  | zero => intro v; rfl
  | succ w ih => intro v; simp [encodeField, ih]

theorem leVal_encodeField : ∀ (w v : Nat), v < 256 ^ w → leVal (encodeField w v) = v := by
  intro w
  induction w with
  | zero =>
    intro v hv
    simp only [pow_zero, Nat.lt_one_iff] at hv
    simp [encodeField, leVal, hv]
  | succ w ih =>
    intro v hv
    have hdiv : v / 256 < 256 ^ w := by
      rw [pow_succ] at hv
      omega
    simp only [encodeField, leVal, ih (v / 256) hdiv]
    omega

theorem rdField_encodeField (w v : Nat) (hv : v < 256 ^ w) (t : List Nat) :
    rdField w (encodeField w v ++ t) = some (v, t) := by
  unfold rdField
  rw [if_neg (by simp [encodeField_length])]
  rw [List.take_left' (encodeField_length w v), List.drop_left' (encodeField_length w v),
      leVal_encodeField w v hv]

theorem rdField24_encode24 (r : uint24_t) (t : List Nat) :
    rdField24 (encode24 r ++ t) = some (r, t) := rfl

theorem lt_pow16 {v : Nat} (h : v < 2 ^ 16) : v < 256 ^ 2 := by
  norm_num at h ⊢; omega

theorem lt_pow32 {v : Nat} (h : v < 2 ^ 32) : v < 256 ^ 4 := by
  norm_num at h ⊢; omega

theorem lt_pow8 {v : Nat} (h : v < 2 ^ 8) : v < 256 ^ 1 := by
  norm_num at h ⊢; omega

/-! ### Per-section decode of a serialized section -/

theorem readPlatformSection_encode (p : PlatformTelemetrySchema)
    (sec0 : PlatformTelemetrySchema) (rest : List Nat) (hwf : PlatformWF p) :
    readPlatformSection (encodePlatform p ++ rest) sec0 = (READ_OK, p, rest) := by
  obtain ⟨h1, h2, h3, h4, h5, h6, h7, h8, h9⟩ := hwf
  have hid : ¬(PLATFORM_ID ≠ (if IS_BIG_ENDIAN then byte16_swap p.platform_telemetry_id
      else p.platform_telemetry_id)) := by simp [IS_BIG_ENDIAN, h2]
  simp only [readPlatformSection, encodePlatform, List.append_assoc]
  rw [rdField_encodeField 2 _ (lt_pow16 h1)]
  dsimp only
  rw [if_neg hid]
  rw [rdField_encodeField 4 _ (lt_pow32 h3)]
  dsimp only
  rw [rdField_encodeField 4 _ (lt_pow32 h4)]
  dsimp only
  rw [rdField24_encode24]
  dsimp only
  rw [rdField_encodeField 1 _ (lt_pow8 h8)]
  dsimp only
  rw [rdField_encodeField 4 _ (lt_pow32 h9)]
  try rfl

theorem readMemorySection_encode (m : MemoryTelemetrySchema)
    (sec0 : MemoryTelemetrySchema) (rest : List Nat) (hwf : MemoryWF m) :
    readMemorySection (encodeMemory m ++ rest) sec0 = (READ_OK, m, rest) := by
  obtain ⟨h1, h2, h3⟩ := hwf
  have hid : ¬(MEMORY_ID ≠ (if IS_BIG_ENDIAN then byte16_swap m.memory_telemetry_id
      else m.memory_telemetry_id)) := by simp [IS_BIG_ENDIAN, h2]
  simp only [readMemorySection, encodeMemory, List.append_assoc]
  rw [rdField_encodeField 2 _ (lt_pow16 h1)]
  dsimp only
  rw [if_neg hid]
  rw [rdField_encodeField 4 _ (lt_pow32 h3)]
  try rfl

theorem readCDHSection_encode (c : CDHTelemetrySchema)
    (sec0 : CDHTelemetrySchema) (rest : List Nat) (hwf : CDHWF c) :
    readCDHSection (encodeCDH c ++ rest) sec0 = (READ_OK, c, rest) := by
  obtain ⟨h1, h2, h3, h4⟩ := hwf
  have hid : ¬(CDH_ID ≠ (if IS_BIG_ENDIAN then byte16_swap c.cdh_id else c.cdh_id)) := by
    simp [IS_BIG_ENDIAN, h2]
  simp only [readCDHSection, encodeCDH, List.append_assoc]
  rw [rdField_encodeField 2 _ (lt_pow16 h1)]
  dsimp only
  rw [if_neg hid]
  rw [rdField_encodeField 4 _ (lt_pow32 h3)]
  dsimp only
  rw [rdField_encodeField 1 _ (lt_pow8 h4)]
  try rfl

theorem readPowerSection_encode (p : PowerTelemetrySchema)
    (sec0 : PowerTelemetrySchema) (rest : List Nat) (hwf : PowerWF p) :
    readPowerSection (encodePower p ++ rest) sec0 = (READ_OK, p, rest) := by
  obtain ⟨h1, h2, h3, h4, h5, h6, h7, h8, h9, h10⟩ := hwf
  have hid : ¬(POWER_ID ≠ (if IS_BIG_ENDIAN then byte16_swap p.power_telemetry_id
      else p.power_telemetry_id)) := by simp [IS_BIG_ENDIAN, h2]
  simp only [readPowerSection, encodePower, List.append_assoc]
  rw [rdField_encodeField 2 _ (lt_pow16 h1)]
  dsimp only
  rw [if_neg hid]
  rw [rdField_encodeField 2 _ (lt_pow16 h3)]
  dsimp only
  rw [rdField_encodeField 2 _ (lt_pow16 h4)]
  dsimp only
  rw [rdField_encodeField 2 _ (lt_pow16 h5)]
  dsimp only
  rw [rdField_encodeField 2 _ (lt_pow16 h6)]
  dsimp only
  rw [rdField_encodeField 2 _ (lt_pow16 h7)]
  dsimp only
  rw [rdField_encodeField 2 _ (lt_pow16 h8)]
  dsimp only
  rw [rdField_encodeField 2 _ (lt_pow16 h9)]
  dsimp only
  rw [rdField_encodeField 2 _ (lt_pow16 h10)]
  try rfl

theorem readThermalSection_encode (t : ThermalTelemetrySchema)
    (sec0 : ThermalTelemetrySchema) (rest : List Nat) (hwf : ThermalWF t) :
    readThermalSection (encodeThermal t ++ rest) sec0 = (READ_OK, t, rest) := by
  obtain ⟨h1, h2, h3, h4⟩ := hwf
  have hid : ¬(THERMAL_ID ≠ (if IS_BIG_ENDIAN then byte16_swap t.thermal_telemetry_id
      else t.thermal_telemetry_id)) := by simp [IS_BIG_ENDIAN, h2]
  simp only [readThermalSection, encodeThermal, List.append_assoc]
  rw [rdField_encodeField 2 _ (lt_pow16 h1)]
  dsimp only
  rw [if_neg hid]
  rw [rdField_encodeField 2 _ (lt_pow16 h3)]
  dsimp only
  rw [rdField_encodeField 2 _ (lt_pow16 h4)]
  try rfl

theorem readAOCSSection_encode (a : AOCSTelemetrySchema)
    (sec0 : AOCSTelemetrySchema) (rest : List Nat) (hwf : AOCSWF a) :
    readAOCSSection (encodeAOCS a ++ rest) sec0 = (READ_OK, a, rest) := by
  obtain ⟨h1, h2, h3, h4, h5, h6, h7, h8, h9, h10, h11, h12, h13, h14, h15, h16,
    h17, h18, h19, h20⟩ := hwf
  have hid : ¬(AOCS_ID ≠ (if IS_BIG_ENDIAN then byte16_swap a.aocs_telemetry_id
      else a.aocs_telemetry_id)) := by simp [IS_BIG_ENDIAN, h2]
  simp only [readAOCSSection, encodeAOCS, List.append_assoc]
  rw [rdField_encodeField 2 _ (lt_pow16 h1)]
  dsimp only
  rw [if_neg hid]
  rw [rdField_encodeField 4 _ (lt_pow32 h3)]
  dsimp only
  rw [rdField_encodeField 2 _ (lt_pow16 h4)]
  dsimp only
  rw [rdField_encodeField 2 _ (lt_pow16 h5)]
  dsimp only
  rw [rdField_encodeField 2 _ (lt_pow16 h6)]
  dsimp only
  rw [rdField_encodeField 2 _ (lt_pow16 h7)]
  dsimp only
  rw [rdField_encodeField 2 _ (lt_pow16 h8)]
  dsimp only
  rw [rdField_encodeField 2 _ (lt_pow16 h9)]
  dsimp only
  rw [rdField_encodeField 2 _ (lt_pow16 h10)]
  dsimp only
  rw [rdField_encodeField 2 _ (lt_pow16 h11)]
  dsimp only
  rw [rdField_encodeField 2 _ (lt_pow16 h12)]
  dsimp only
  rw [rdField_encodeField 2 _ (lt_pow16 h13)]
  dsimp only
  rw [rdField_encodeField 4 _ (lt_pow32 h14)]
  dsimp only
  rw [rdField_encodeField 4 _ (lt_pow32 h15)]
  dsimp only
  rw [rdField_encodeField 4 _ (lt_pow32 h16)]
  dsimp only
  rw [rdField_encodeField 2 _ (lt_pow16 h17)]
  dsimp only
  rw [rdField_encodeField 2 _ (lt_pow16 h18)]
  dsimp only
  rw [rdField_encodeField 2 _ (lt_pow16 h19)]
  dsimp only
  rw [rdField_encodeField 2 _ (lt_pow16 h20)]
  try rfl

theorem readPayloadSection_encode (p : PayloadTelemetrySchema)
    (sec0 : PayloadTelemetrySchema) (rest : List Nat) (hwf : PayloadWF p) :
    readPayloadSection (encodePayload p ++ rest) sec0 = (READ_OK, p, rest) := by
  obtain ⟨h1, h2, h3, h4, h5, h6⟩ := hwf
  have hid : ¬(PAYLOAD_ID ≠ (if IS_BIG_ENDIAN then byte16_swap p.payload_telemetry_id
      else p.payload_telemetry_id)) := by simp [IS_BIG_ENDIAN, h2]
  simp only [readPayloadSection, encodePayload, List.append_assoc]
  rw [rdField_encodeField 2 _ (lt_pow16 h1)]
  dsimp only
  rw [if_neg hid]
  rw [rdField_encodeField 2 _ (lt_pow16 h3)]
  dsimp only
  rw [rdField_encodeField 2 _ (lt_pow16 h4)]
  dsimp only
  rw [rdField_encodeField 2 _ (lt_pow16 h5)]
  dsimp only
  rw [rdField_encodeField 1 _ (lt_pow8 h6)]
  try rfl

theorem readSections_encode (f : BeaconFrame) (out : BeaconFrame) (rest : List Nat)
    (hwf : FrameWF f) :
    readSections
      (encodePlatform f.platform ++ (encodeMemory f.memory ++ (encodeCDH f.cdh ++
        (encodePower f.power ++ (encodeThermal f.thermal ++ (encodeAOCS f.aocs ++
          (encodePayload f.payload ++ rest))))))) out = (READ_OK, f, rest) := by
  obtain ⟨hp, hm, hc, hw, ht, ha, hpl⟩ := hwf
  unfold readSections
  rw [readPlatformSection_encode f.platform out.platform _ hp]
  dsimp only
  rw [readMemorySection_encode f.memory _ _ hm]
  dsimp only
  rw [readCDHSection_encode f.cdh _ _ hc]
  dsimp only
  rw [readPowerSection_encode f.power _ _ hw]
  dsimp only
  rw [readThermalSection_encode f.thermal _ _ ht]
  dsimp only
  rw [readAOCSSection_encode f.aocs _ _ ha]
  dsimp only
  rw [readPayloadSection_encode f.payload _ _ hpl]
  try rfl

theorem sync_loop_marker_start (hdr : BeaconHeader) (t : List Nat) :
    sync_loop hdr []
      ([hdr.beacon_id.b0, hdr.beacon_id.b1, hdr.beacon_id.b2] ++ t) = some t := by
  simp [sync_loop]

/-- C1: serializing a synthetic frame's fields in schema order after the
marker and decoding it with read_data_frame returns READ_OK and reproduces
every raw field bit-for-bit: the output frame equals the input, all fields
still holding the little-endian memory image of the wire bytes — only the
identifiers are swapped, and only for the comparison. -/
theorem c1_roundtrip (hdr : BeaconHeader) (f : BeaconFrame) (out : BeaconFrame)
    (rest : List Nat) (hwf : FrameWF f) :
    read_data_frame hdr (encodeFrame hdr f ++ rest) out = (READ_OK, f, rest) := by
  unfold read_data_frame encodeFrame
  simp only [List.append_assoc]
  rw [sync_loop_marker_start]
  dsimp only
  exact readSections_encode f out rest hwf

/-- Witness for C1 at a concrete well-formed frame. -/
theorem c1_roundtrip_witness :
    read_data_frame exHeader (encodeFrame exHeader exFrame ++ []) default =
      (READ_OK, exFrame, []) :=
  c1_roundtrip exHeader exFrame default [] (by decide)

theorem readThermalSection_badid (tid : Nat) (junk : List Nat)
    (sec0 : ThermalTelemetrySchema) (htid : tid < 2 ^ 16)
    (hbad : byte16_swap tid ≠ THERMAL_ID) :
    readThermalSection (encodeField 2 tid ++ junk) sec0 =
      (READ_FAIL, { sec0 with thermal_telemetry_id := tid }, junk) := by
  simp only [readThermalSection]
  rw [rdField_encodeField 2 _ (lt_pow16 htid)]
  dsimp only
  rw [if_pos (show THERMAL_ID ≠ (if IS_BIG_ENDIAN then byte16_swap tid else tid) by
    simp only [IS_BIG_ENDIAN, if_true]
    exact Ne.symm hbad)]

theorem readPlatformSection_badid (bid : Nat) (junk : List Nat)
    (sec0 : PlatformTelemetrySchema) (hb : bid < 2 ^ 16)
    (hbad : byte16_swap bid ≠ PLATFORM_ID) :
    readPlatformSection (encodeField 2 bid ++ junk) sec0 =
      (READ_FAIL, { sec0 with platform_telemetry_id := bid }, junk) := by
  simp only [readPlatformSection]
  rw [rdField_encodeField 2 _ (lt_pow16 hb)]
  dsimp only
  rw [if_pos (show PLATFORM_ID ≠ (if IS_BIG_ENDIAN then byte16_swap bid else bid) by
    simp only [IS_BIG_ENDIAN, if_true]
    exact Ne.symm hbad)]

theorem readMemorySection_badid (bid : Nat) (junk : List Nat)
    (sec0 : MemoryTelemetrySchema) (hb : bid < 2 ^ 16)
    (hbad : byte16_swap bid ≠ MEMORY_ID) :
    readMemorySection (encodeField 2 bid ++ junk) sec0 =
      (READ_FAIL, { sec0 with memory_telemetry_id := bid }, junk) := by
  simp only [readMemorySection]
  rw [rdField_encodeField 2 _ (lt_pow16 hb)]
  dsimp only
  rw [if_pos (show MEMORY_ID ≠ (if IS_BIG_ENDIAN then byte16_swap bid else bid) by
    simp only [IS_BIG_ENDIAN, if_true]
    exact Ne.symm hbad)]

theorem readCDHSection_badid (bid : Nat) (junk : List Nat)
    (sec0 : CDHTelemetrySchema) (hb : bid < 2 ^ 16)
    (hbad : byte16_swap bid ≠ CDH_ID) :
    readCDHSection (encodeField 2 bid ++ junk) sec0 =
      (READ_FAIL, { sec0 with cdh_id := bid }, junk) := by
  simp only [readCDHSection]
  rw [rdField_encodeField 2 _ (lt_pow16 hb)]
  dsimp only
  rw [if_pos (show CDH_ID ≠ (if IS_BIG_ENDIAN then byte16_swap bid else bid) by
    simp only [IS_BIG_ENDIAN, if_true]
    exact Ne.symm hbad)]

theorem readPowerSection_badid (bid : Nat) (junk : List Nat)
    (sec0 : PowerTelemetrySchema) (hb : bid < 2 ^ 16)
    (hbad : byte16_swap bid ≠ POWER_ID) :
    readPowerSection (encodeField 2 bid ++ junk) sec0 =
      (READ_FAIL, { sec0 with power_telemetry_id := bid }, junk) := by
  simp only [readPowerSection]
  rw [rdField_encodeField 2 _ (lt_pow16 hb)]
  dsimp only
  rw [if_pos (show POWER_ID ≠ (if IS_BIG_ENDIAN then byte16_swap bid else bid) by
    simp only [IS_BIG_ENDIAN, if_true]
    exact Ne.symm hbad)]

theorem readAOCSSection_badid (bid : Nat) (junk : List Nat)
    (sec0 : AOCSTelemetrySchema) (hb : bid < 2 ^ 16)
    (hbad : byte16_swap bid ≠ AOCS_ID) :
    readAOCSSection (encodeField 2 bid ++ junk) sec0 =
      (READ_FAIL, { sec0 with aocs_telemetry_id := bid }, junk) := by
  simp only [readAOCSSection]
  rw [rdField_encodeField 2 _ (lt_pow16 hb)]
  dsimp only
  rw [if_pos (show AOCS_ID ≠ (if IS_BIG_ENDIAN then byte16_swap bid else bid) by
    simp only [IS_BIG_ENDIAN, if_true]
    exact Ne.symm hbad)]

theorem readPayloadSection_badid (bid : Nat) (junk : List Nat)
    (sec0 : PayloadTelemetrySchema) (hb : bid < 2 ^ 16)
    (hbad : byte16_swap bid ≠ PAYLOAD_ID) :
    readPayloadSection (encodeField 2 bid ++ junk) sec0 =
      (READ_FAIL, { sec0 with payload_telemetry_id := bid }, junk) := by
  simp only [readPayloadSection]
  rw [rdField_encodeField 2 _ (lt_pow16 hb)]
  dsimp only
  rw [if_pos (show PAYLOAD_ID ≠ (if IS_BIG_ENDIAN then byte16_swap bid else bid) by
    simp only [IS_BIG_ENDIAN, if_true]
    exact Ne.symm hbad)]

/-- C5: for each of the seven sections, read_data_frame reads the 2-byte
identifier first, converts it from wire to native order and compares it with
the section's expected constant; on mismatch the call fails with READ_FAIL
without reading any further field of that section: the offending value lands
in the identifier field, every other field of that section and all later
sections keep the caller's previous contents, and the stream position is
immediately after the identifier bytes — even when all subsequent bytes are
well-formed.  One conjunct per section, each with its preceding sections
serialized well-formed. -/
theorem c5_identifier_mismatch :
    (∀ (hdr : BeaconHeader) (bid : Nat) (junk : List Nat) (out : BeaconFrame),
      bid < 2 ^ 16 → byte16_swap bid ≠ PLATFORM_ID →
      read_data_frame hdr
        ([hdr.beacon_id.b0, hdr.beacon_id.b1, hdr.beacon_id.b2] ++
          (encodeField 2 bid ++ junk)) out =
        (READ_FAIL,
         { out with platform := { out.platform with platform_telemetry_id := bid } },
         junk)) ∧
    (∀ (hdr : BeaconHeader) (P : PlatformTelemetrySchema) (bid : Nat)
        (junk : List Nat) (out : BeaconFrame),
      PlatformWF P → bid < 2 ^ 16 → byte16_swap bid ≠ MEMORY_ID →
      read_data_frame hdr
        ([hdr.beacon_id.b0, hdr.beacon_id.b1, hdr.beacon_id.b2] ++
          (encodePlatform P ++ (encodeField 2 bid ++ junk))) out =
        (READ_FAIL,
         { out with platform := P,
                    memory := { out.memory with memory_telemetry_id := bid } },
         junk)) ∧
    (∀ (hdr : BeaconHeader) (P : PlatformTelemetrySchema) (M : MemoryTelemetrySchema)
        (bid : Nat) (junk : List Nat) (out : BeaconFrame),
      PlatformWF P → MemoryWF M → bid < 2 ^ 16 → byte16_swap bid ≠ CDH_ID →
      read_data_frame hdr
        ([hdr.beacon_id.b0, hdr.beacon_id.b1, hdr.beacon_id.b2] ++
          (encodePlatform P ++ (encodeMemory M ++ (encodeField 2 bid ++ junk)))) out =
        (READ_FAIL,
         { out with platform := P, memory := M,
                    cdh := { out.cdh with cdh_id := bid } },
         junk)) ∧
    (∀ (hdr : BeaconHeader) (P : PlatformTelemetrySchema) (M : MemoryTelemetrySchema)
        (C : CDHTelemetrySchema) (bid : Nat) (junk : List Nat) (out : BeaconFrame),
      PlatformWF P → MemoryWF M → CDHWF C → bid < 2 ^ 16 → byte16_swap bid ≠ POWER_ID →
      read_data_frame hdr
        ([hdr.beacon_id.b0, hdr.beacon_id.b1, hdr.beacon_id.b2] ++
          (encodePlatform P ++ (encodeMemory M ++ (encodeCDH C ++
            (encodeField 2 bid ++ junk))))) out =
        (READ_FAIL,
         { out with platform := P, memory := M, cdh := C,
                    power := { out.power with power_telemetry_id := bid } },
         junk)) ∧
    (∀ (hdr : BeaconHeader) (P : PlatformTelemetrySchema) (M : MemoryTelemetrySchema)
        (C : CDHTelemetrySchema) (W : PowerTelemetrySchema) (bid : Nat)
        (junk : List Nat) (out : BeaconFrame),
      PlatformWF P → MemoryWF M → CDHWF C → PowerWF W →
      bid < 2 ^ 16 → byte16_swap bid ≠ THERMAL_ID →
      read_data_frame hdr
        ([hdr.beacon_id.b0, hdr.beacon_id.b1, hdr.beacon_id.b2] ++
          (encodePlatform P ++ (encodeMemory M ++ (encodeCDH C ++
            (encodePower W ++ (encodeField 2 bid ++ junk)))))) out =
        (READ_FAIL,
         { out with platform := P, memory := M, cdh := C, power := W,
                    thermal := { out.thermal with thermal_telemetry_id := bid } },
         junk)) ∧
    (∀ (hdr : BeaconHeader) (P : PlatformTelemetrySchema) (M : MemoryTelemetrySchema)
        (C : CDHTelemetrySchema) (W : PowerTelemetrySchema) (T : ThermalTelemetrySchema)
        (bid : Nat) (junk : List Nat) (out : BeaconFrame),
      PlatformWF P → MemoryWF M → CDHWF C → PowerWF W → ThermalWF T →
      bid < 2 ^ 16 → byte16_swap bid ≠ AOCS_ID →
      read_data_frame hdr
        ([hdr.beacon_id.b0, hdr.beacon_id.b1, hdr.beacon_id.b2] ++
          (encodePlatform P ++ (encodeMemory M ++ (encodeCDH C ++
            (encodePower W ++ (encodeThermal T ++ (encodeField 2 bid ++ junk))))))) out =
        (READ_FAIL,
         { out with platform := P, memory := M, cdh := C, power := W, thermal := T,
                    aocs := { out.aocs with aocs_telemetry_id := bid } },
         junk)) ∧
    (∀ (hdr : BeaconHeader) (P : PlatformTelemetrySchema) (M : MemoryTelemetrySchema)
        (C : CDHTelemetrySchema) (W : PowerTelemetrySchema) (T : ThermalTelemetrySchema)
        (A : AOCSTelemetrySchema) (bid : Nat) (junk : List Nat) (out : BeaconFrame),
      PlatformWF P → MemoryWF M → CDHWF C → PowerWF W → ThermalWF T → AOCSWF A →
      bid < 2 ^ 16 → byte16_swap bid ≠ PAYLOAD_ID →
      read_data_frame hdr
        ([hdr.beacon_id.b0, hdr.beacon_id.b1, hdr.beacon_id.b2] ++
          (encodePlatform P ++ (encodeMemory M ++ (encodeCDH C ++
            (encodePower W ++ (encodeThermal T ++ (encodeAOCS A ++
              (encodeField 2 bid ++ junk)))))))) out =
        (READ_FAIL,
         { out with platform := P, memory := M, cdh := C, power := W, thermal := T,
                    aocs := A,
                    payload := { out.payload with payload_telemetry_id := bid } },
         junk)) := by
  refine ⟨?_, ?_, ?_, ?_, ?_, ?_, ?_⟩
  · intro hdr bid junk out hb hbad
    unfold read_data_frame
    rw [sync_loop_marker_start]
    dsimp only
    unfold readSections
    rw [readPlatformSection_badid bid junk _ hb hbad]
  · intro hdr P bid junk out hp hb hbad
    unfold read_data_frame
    rw [sync_loop_marker_start]
    dsimp only
    unfold readSections
    rw [readPlatformSection_encode P _ _ hp]
    dsimp only
    rw [readMemorySection_badid bid junk _ hb hbad]
  · intro hdr P M bid junk out hp hm hb hbad
    unfold read_data_frame
    rw [sync_loop_marker_start]
    dsimp only
    unfold readSections
    rw [readPlatformSection_encode P _ _ hp]
    dsimp only
    rw [readMemorySection_encode M _ _ hm]
    dsimp only
    rw [readCDHSection_badid bid junk _ hb hbad]
  · intro hdr P M C bid junk out hp hm hc hb hbad
    unfold read_data_frame
    rw [sync_loop_marker_start]
    dsimp only
    unfold readSections
    rw [readPlatformSection_encode P _ _ hp]
    dsimp only
    rw [readMemorySection_encode M _ _ hm]
    dsimp only
    rw [readCDHSection_encode C _ _ hc]
    dsimp only
    rw [readPowerSection_badid bid junk _ hb hbad]
  · intro hdr P M C W bid junk out hp hm hc hw hb hbad
    unfold read_data_frame
    rw [sync_loop_marker_start]
    dsimp only
    unfold readSections
    rw [readPlatformSection_encode P _ _ hp]
    dsimp only
    rw [readMemorySection_encode M _ _ hm]
    dsimp only
    rw [readCDHSection_encode C _ _ hc]
    dsimp only
    rw [readPowerSection_encode W _ _ hw]
    dsimp only
    rw [readThermalSection_badid bid junk _ hb hbad]
  · intro hdr P M C W T bid junk out hp hm hc hw ht hb hbad
    unfold read_data_frame
    rw [sync_loop_marker_start]
    dsimp only
    unfold readSections
    rw [readPlatformSection_encode P _ _ hp]
    dsimp only
    rw [readMemorySection_encode M _ _ hm]
    dsimp only
    rw [readCDHSection_encode C _ _ hc]
    dsimp only
    rw [readPowerSection_encode W _ _ hw]
    dsimp only
    rw [readThermalSection_encode T _ _ ht]
    dsimp only
    rw [readAOCSSection_badid bid junk _ hb hbad]
  · intro hdr P M C W T A bid junk out hp hm hc hw ht ha hb hbad
    unfold read_data_frame
    rw [sync_loop_marker_start]
    dsimp only
    unfold readSections
    rw [readPlatformSection_encode P _ _ hp]
    dsimp only
    rw [readMemorySection_encode M _ _ hm]
    dsimp only
    rw [readCDHSection_encode C _ _ hc]
    dsimp only
    rw [readPowerSection_encode W _ _ hw]
    dsimp only
    rw [readThermalSection_encode T _ _ ht]
    dsimp only
    rw [readAOCSSection_encode A _ _ ha]
    dsimp only
    rw [readPayloadSection_badid bid junk _ hb hbad]

/-- Witness for C5: identifier bytes decoding to 0 instead of the expected
constant abort the frame with READ_FAIL, exercised for all seven sections. -/
theorem c5_identifier_mismatch_witness :
    read_data_frame exHeader
      ([exHeader.beacon_id.b0, exHeader.beacon_id.b1, exHeader.beacon_id.b2] ++
        (encodeField 2 0 ++ [1, 2, 3])) default =
      (READ_FAIL,
       { (default : BeaconFrame) with
           platform := { (default : BeaconFrame).platform with platform_telemetry_id := 0 } },
       [1, 2, 3]) ∧
    read_data_frame exHeader
      ([exHeader.beacon_id.b0, exHeader.beacon_id.b1, exHeader.beacon_id.b2] ++
        (encodePlatform exFrame.platform ++ (encodeField 2 0 ++ [1, 2, 3]))) default =
      (READ_FAIL,
       { (default : BeaconFrame) with
           platform := exFrame.platform,
           memory := { (default : BeaconFrame).memory with memory_telemetry_id := 0 } },
       [1, 2, 3]) ∧
    read_data_frame exHeader
      ([exHeader.beacon_id.b0, exHeader.beacon_id.b1, exHeader.beacon_id.b2] ++
        (encodePlatform exFrame.platform ++ (encodeMemory exFrame.memory ++
          (encodeField 2 0 ++ [1, 2, 3])))) default =
      (READ_FAIL,
       { (default : BeaconFrame) with
           platform := exFrame.platform,
           memory := exFrame.memory,
           cdh := { (default : BeaconFrame).cdh with cdh_id := 0 } },
       [1, 2, 3]) ∧
    read_data_frame exHeader
      ([exHeader.beacon_id.b0, exHeader.beacon_id.b1, exHeader.beacon_id.b2] ++
        (encodePlatform exFrame.platform ++ (encodeMemory exFrame.memory ++
          (encodeCDH exFrame.cdh ++ (encodeField 2 0 ++ [1, 2, 3]))))) default =
      (READ_FAIL,
       { (default : BeaconFrame) with
           platform := exFrame.platform,
           memory := exFrame.memory, cdh := exFrame.cdh,
           power := { (default : BeaconFrame).power with power_telemetry_id := 0 } },
       [1, 2, 3]) ∧
    read_data_frame exHeader
      ([exHeader.beacon_id.b0, exHeader.beacon_id.b1, exHeader.beacon_id.b2] ++
        (encodePlatform exFrame.platform ++ (encodeMemory exFrame.memory ++
          (encodeCDH exFrame.cdh ++ (encodePower exFrame.power ++
            (encodeField 2 0 ++ [1, 2, 3])))))) default =
      (READ_FAIL,
       { (default : BeaconFrame) with
           platform := exFrame.platform,
           memory := exFrame.memory, cdh := exFrame.cdh, power := exFrame.power,
           thermal := { (default : BeaconFrame).thermal with thermal_telemetry_id := 0 } },
       [1, 2, 3]) ∧
    read_data_frame exHeader
      ([exHeader.beacon_id.b0, exHeader.beacon_id.b1, exHeader.beacon_id.b2] ++
        (encodePlatform exFrame.platform ++ (encodeMemory exFrame.memory ++
          (encodeCDH exFrame.cdh ++ (encodePower exFrame.power ++
            (encodeThermal exFrame.thermal ++ (encodeField 2 0 ++ [1, 2, 3]))))))) default =
      (READ_FAIL,
       { (default : BeaconFrame) with
           platform := exFrame.platform,
           memory := exFrame.memory, cdh := exFrame.cdh, power := exFrame.power,
           thermal := exFrame.thermal,
           aocs := { (default : BeaconFrame).aocs with aocs_telemetry_id := 0 } },
       [1, 2, 3]) ∧
    read_data_frame exHeader
      ([exHeader.beacon_id.b0, exHeader.beacon_id.b1, exHeader.beacon_id.b2] ++
        (encodePlatform exFrame.platform ++ (encodeMemory exFrame.memory ++
          (encodeCDH exFrame.cdh ++ (encodePower exFrame.power ++
            (encodeThermal exFrame.thermal ++ (encodeAOCS exFrame.aocs ++
              (encodeField 2 0 ++ [1, 2, 3])))))))) default =
      (READ_FAIL,
       { (default : BeaconFrame) with
           platform := exFrame.platform,
           memory := exFrame.memory, cdh := exFrame.cdh, power := exFrame.power,
           thermal := exFrame.thermal, aocs := exFrame.aocs,
           payload := { (default : BeaconFrame).payload with payload_telemetry_id := 0 } },
       [1, 2, 3]) :=
  ⟨c5_identifier_mismatch.1 exHeader 0 [1, 2, 3] default (by decide) (by decide),
   c5_identifier_mismatch.2.1 exHeader exFrame.platform 0 [1, 2, 3] default
     (by decide) (by decide) (by decide),
   c5_identifier_mismatch.2.2.1 exHeader exFrame.platform exFrame.memory 0 [1, 2, 3]
     default (by decide) (by decide) (by decide) (by decide),
   c5_identifier_mismatch.2.2.2.1 exHeader exFrame.platform exFrame.memory exFrame.cdh
     0 [1, 2, 3] default (by decide) (by decide) (by decide) (by decide) (by decide),
   c5_identifier_mismatch.2.2.2.2.1 exHeader exFrame.platform exFrame.memory exFrame.cdh
     exFrame.power 0 [1, 2, 3] default (by decide) (by decide) (by decide) (by decide)
     (by decide) (by decide),
   c5_identifier_mismatch.2.2.2.2.2.1 exHeader exFrame.platform exFrame.memory
     exFrame.cdh exFrame.power exFrame.thermal 0 [1, 2, 3] default (by decide)
     (by decide) (by decide) (by decide) (by decide) (by decide) (by decide),
   c5_identifier_mismatch.2.2.2.2.2.2 exHeader exFrame.platform exFrame.memory
     exFrame.cdh exFrame.power exFrame.thermal exFrame.aocs 0 [1, 2, 3] default
     (by decide) (by decide) (by decide) (by decide) (by decide) (by decide)
     (by decide) (by decide)⟩

/-! ### Status discipline of the decoder -/

theorem readPlatformSection_ne_eof (s : List Nat) (sec : PlatformTelemetrySchema) :
    (readPlatformSection s sec).1 ≠ READ_EOF := by
  simp only [readPlatformSection]
  repeat' split
  all_goals simp

theorem readMemorySection_ne_eof (s : List Nat) (sec : MemoryTelemetrySchema) :
    (readMemorySection s sec).1 ≠ READ_EOF := by
  simp only [readMemorySection]
  repeat' split
  all_goals simp

theorem readCDHSection_ne_eof (s : List Nat) (sec : CDHTelemetrySchema) :
    (readCDHSection s sec).1 ≠ READ_EOF := by
  simp only [readCDHSection]
  repeat' split
  all_goals simp

theorem readPowerSection_ne_eof (s : List Nat) (sec : PowerTelemetrySchema) :
    (readPowerSection s sec).1 ≠ READ_EOF := by
  simp only [readPowerSection]
  repeat' split
  all_goals simp

theorem readThermalSection_ne_eof (s : List Nat) (sec : ThermalTelemetrySchema) :
    (readThermalSection s sec).1 ≠ READ_EOF := by
  simp only [readThermalSection]
  repeat' split
  all_goals simp

theorem readAOCSSection_ne_eof (s : List Nat) (sec : AOCSTelemetrySchema) :
    (readAOCSSection s sec).1 ≠ READ_EOF := by
  simp only [readAOCSSection]
  repeat' split
  all_goals simp

theorem readPayloadSection_ne_eof (s : List Nat) (sec : PayloadTelemetrySchema) :
    (readPayloadSection s sec).1 ≠ READ_EOF := by
  simp only [readPayloadSection]
  repeat' split
  all_goals simp

theorem readSections_ne_eof (s : List Nat) (out : BeaconFrame) :
    (readSections s out).1 ≠ READ_EOF := by
  rcases hps : readPlatformSection s out.platform with ⟨st1, sec1, t1⟩
  have hne1 := readPlatformSection_ne_eof s out.platform
  rw [hps] at hne1
  unfold readSections
  rw [hps]
  cases st1 with
  | READ_FAIL => simp
  | READ_EOF => exact absurd rfl hne1
  | READ_OK =>
    dsimp only
    rcases hms : readMemorySection t1 out.memory with ⟨st2, sec2, t2⟩
    have hne2 := readMemorySection_ne_eof t1 out.memory
    rw [hms] at hne2
    cases st2 with
    | READ_FAIL => simp
    | READ_EOF => exact absurd rfl hne2
    | READ_OK =>
      dsimp only
      rcases hcs : readCDHSection t2 out.cdh with ⟨st3, sec3, t3⟩
      have hne3 := readCDHSection_ne_eof t2 out.cdh
      rw [hcs] at hne3
      cases st3 with
      | READ_FAIL => simp
      | READ_EOF => exact absurd rfl hne3
      | READ_OK =>
        dsimp only
        rcases hws : readPowerSection t3 out.power with ⟨st4, sec4, t4⟩
        have hne4 := readPowerSection_ne_eof t3 out.power
        rw [hws] at hne4
        cases st4 with
        | READ_FAIL => simp
        | READ_EOF => exact absurd rfl hne4
        | READ_OK =>
          dsimp only
          rcases hts : readThermalSection t4 out.thermal with ⟨st5, sec5, t5⟩
          have hne5 := readThermalSection_ne_eof t4 out.thermal
          rw [hts] at hne5
          cases st5 with
          | READ_FAIL => simp
          | READ_EOF => exact absurd rfl hne5
          | READ_OK =>
            dsimp only
            rcases has : readAOCSSection t5 out.aocs with ⟨st6, sec6, t6⟩
            have hne6 := readAOCSSection_ne_eof t5 out.aocs
            rw [has] at hne6
            cases st6 with
            | READ_FAIL => simp
            | READ_EOF => exact absurd rfl hne6
            | READ_OK =>
              dsimp only
              rcases hls : readPayloadSection t6 out.payload with ⟨st7, sec7, t7⟩
              have hne7 := readPayloadSection_ne_eof t6 out.payload
              rw [hls] at hne7
              cases st7 with
              | READ_FAIL => simp
              | READ_EOF => exact absurd rfl hne7
              | READ_OK => simp

/-- C6: every call of read_data_frame returns exactly one of READ_OK,
READ_FAIL, READ_EOF; it returns READ_EOF if and only if the stream is
exhausted before the marker is matched, and once the marker has been matched
any failure — including a short read — is READ_FAIL or READ_OK, never
READ_EOF. -/
theorem c6_status_discipline (hdr : BeaconHeader) (s : List Nat) (out : BeaconFrame) :
    ((read_data_frame hdr s out).1 = READ_OK ∨ (read_data_frame hdr s out).1 = READ_FAIL ∨
      (read_data_frame hdr s out).1 = READ_EOF) ∧
    ((read_data_frame hdr s out).1 = READ_EOF ↔ sync_loop hdr [] s = none) := by
  constructor
  · cases h : (read_data_frame hdr s out).1 <;> simp
  · unfold read_data_frame
    cases hs : sync_loop hdr [] s with
    | none => simp
    | some r =>
      dsimp only
      simp [readSections_ne_eof r out]

/-! ### Frame completeness gate (C7) -/

/-- Counterexample to C7 as stated: a stream with a valid marker and a valid
Platform identifier whose Platform uptime field decodes to 7 and which then
hits EOF makes read_data_frame return READ_FAIL while the caller-visible out
struct carries the partially decoded Platform data (uptime_s = 7 differs
from the caller's previous 0). -/
theorem c7_partial_write_counterexample :
    (read_data_frame ⟨⟨0xFF, 0xFF, 0xF0⟩⟩
        ([0xFF, 0xFF, 0xF0] ++ encodeField 2 0x0100 ++ encodeField 4 7) default).1 =
      READ_FAIL ∧
    (read_data_frame ⟨⟨0xFF, 0xFF, 0xF0⟩⟩
        ([0xFF, 0xFF, 0xF0] ++ encodeField 2 0x0100 ++ encodeField 4 7)
        default).2.1.platform.uptime_s = 7 ∧
    (default : BeaconFrame).platform.uptime_s = 0 := by
  refine ⟨?_, ?_, rfl⟩ <;> decide

/-- C7 as amended: partial data may remain in the out struct, but no partial
frame escapes as a frame: the main read loop consumes a frame only when
read_data_frame returns READ_OK, so a call returning READ_FAIL or READ_EOF
contributes no record to either series, and records are appended exactly
once per READ_OK call. -/
theorem c7_amended_status_gate :
    (∀ (hdr : BeaconHeader) (fuel : Nat) (s : List Nat) (fr : BeaconFrame),
      (read_data_frame hdr s fr).1 ≠ READ_OK →
      collect_frames hdr (fuel + 1) s fr = ([], [], (read_data_frame hdr s fr).1)) ∧
    (∀ (hdr : BeaconHeader) (fuel : Nat) (s : List Nat) (fr f : BeaconFrame)
        (rest : List Nat),
      read_data_frame hdr s fr = (READ_OK, f, rest) →
      collect_frames hdr (fuel + 1) s fr =
        (thermal_to_calibrated f.thermal f.platform.rtc_s ::
            (collect_frames hdr fuel rest f).1,
         sun_sensors_to_calibrated f.aocs f.platform.rtc_s ::
            (collect_frames hdr fuel rest f).2.1,
         (collect_frames hdr fuel rest f).2.2)) := by
  constructor
  · intro hdr fuel s fr hne
    rcases hread : read_data_frame hdr s fr with ⟨st, f, rest⟩
    rw [hread] at hne
    rw [collect_frames, hread]
    cases st with
    | READ_OK => exact absurd rfl hne
    | READ_FAIL => rfl
    | READ_EOF => rfl
  · intro hdr fuel s fr f rest hread
    rw [collect_frames, hread]

/-- Witness for the amended C7: on a two-byte stream with no marker, the
loop appends nothing and surfaces the READ_EOF status of the failing call. -/
theorem c7_amended_status_gate_witness :
    collect_frames ⟨⟨0xFF, 0xFF, 0xF0⟩⟩ (0 + 1) [0, 1] default =
      ([], [], (read_data_frame ⟨⟨0xFF, 0xFF, 0xF0⟩⟩ [0, 1] default).1) :=
  c7_amended_status_gate.1 ⟨⟨0xFF, 0xFF, 0xF0⟩⟩ 0 [0, 1] default (by decide)

end SatelliteReader
